import Mathlib

/-!
# Verification of the lumina-lead-scraper lead-funnel core

Shallow embedding of the lead-funnel orchestration engine:

* `scraper/database.py` — the persistent store (`LeadDatabase`): projects,
  telegram groups, admins, outreach messages, daily metrics.
* `scraper/telegram_automator.py` — the stage executor (`TelegramAutomator`):
  sliding-window rate limiter, `join_group`, `send_dm`, `process_project`.
* `scraper/autonomous_scraper.py` — the cycle controller (`_scrape_cycle`).

SQLite tables are modelled as Lean lists of rows in insertion order, with
`AUTOINCREMENT` ids threaded through a `next_*_id` counter.  Timestamps
(`datetime.now()` / `CURRENT_TIMESTAMP`) are explicit integer-second
parameters; calendar dates are explicit string parameters.  NULLable columns
are `Option` fields; a Python dict key that is absent is identified with a
key whose value is `None` (the scraper only ever builds these dicts with all
keys present).  External calls (telethon client operations) are modelled as
explicit environment records carrying each call's outcome.
-/

namespace Lumina

/-- Python truthiness of an optional string (`None` and `""` are falsy). -/
def truthy : Option String → Bool
  | some s => !(s == "")
  | none => false

/-- Python `a or b` on optional strings: `a` when truthy, else `b`. -/
def pyOr (a b : Option String) : Option String :=
  if truthy a then a else b

/-- Python `str(x)` for an `Optional[str]` as used in f-string interpolation:
`None` prints as `"None"`. -/
def pyStr : Option String → String
  | some s => s
  | none => "None"

/-! ## Store rows (`database.py`, `_create_tables`) -/

/-- One row of the `projects` table (a Lead). -/
structure Project where
  id : Nat
  contract_address : String
  name : Option String
  symbol : Option String
  chain : String
  website : Option String
  telegram_url : Option String
  twitter_url : Option String
  dexscreener_url : Option String
  volume_24h : Option Rat
  liquidity : Option Rat
  market_cap : Option Rat
  age_hours : Option Rat
  is_indexed : Option Bool
  index_checked_at : Option Int
  status : String
  discovered_at : Int
  updated_at : Int
  source_url : Option String
  source_page : Option Int
  deriving Repr, DecidableEq

/-- One row of the `telegram_groups` table (a GroupMembership). -/
structure TGroup where
  id : Nat
  project_id : Nat
  telegram_url : String
  joined_at : Int
  join_success : Bool
  join_error : Option String
  deriving Repr, DecidableEq

/-- One row of the `admins` table. -/
structure AdminRow where
  id : Nat
  project_id : Nat
  group_id : Nat
  username : String
  user_id : Option String
  first_name : Option String
  is_owner : Bool
  deriving Repr, DecidableEq

/-- One row of the `messages` table (an OutreachMessage). -/
structure MessageRow where
  id : Nat
  project_id : Nat
  admin_id : Option Nat
  message_text : String
  template_used : Option String
  sent_at : Int
  send_success : Bool
  send_error : Option String
  response_received : Bool
  response_text : Option String
  response_at : Option Int
  deriving Repr, DecidableEq

/-- The fixed set of counter columns of `daily_metrics`.  The source
increments them through a dynamically built column name; the names that ever
reach `_increment_daily_metric` are exactly these ten columns. -/
inductive Metric
  | tokens_found
  | tokens_with_telegram
  | unindexed_sites_found
  | groups_joined
  | join_failures
  | admins_found
  | dms_sent
  | dms_failed
  | responses_received
  | conversions
  deriving Repr, DecidableEq

/-- One row of the `daily_metrics` table (`date` column plus ten counters,
all defaulting to 0). -/
structure DailyRow where
  date : String
  tokens_found : Nat := 0
  tokens_with_telegram : Nat := 0
  unindexed_sites_found : Nat := 0
  groups_joined : Nat := 0
  join_failures : Nat := 0
  admins_found : Nat := 0
  dms_sent : Nat := 0
  dms_failed : Nat := 0
  responses_received : Nat := 0
  conversions : Nat := 0
  deriving Repr, DecidableEq

/-- Read one counter of a `daily_metrics` row. -/
def DailyRow.get (r : DailyRow) : Metric → Nat
  | .tokens_found => r.tokens_found
  | .tokens_with_telegram => r.tokens_with_telegram
  | .unindexed_sites_found => r.unindexed_sites_found
  | .groups_joined => r.groups_joined
  | .join_failures => r.join_failures
  | .admins_found => r.admins_found
  | .dms_sent => r.dms_sent
  | .dms_failed => r.dms_failed
  | .responses_received => r.responses_received
  | .conversions => r.conversions

/-- `UPDATE daily_metrics SET {metric} = {metric} + amount` on one row. -/
def DailyRow.inc (r : DailyRow) (m : Metric) (amount : Nat) : DailyRow :=
  match m with
  | .tokens_found => { r with tokens_found := r.tokens_found + amount }
  | .tokens_with_telegram => { r with tokens_with_telegram := r.tokens_with_telegram + amount }
  | .unindexed_sites_found => { r with unindexed_sites_found := r.unindexed_sites_found + amount }
  | .groups_joined => { r with groups_joined := r.groups_joined + amount }
  | .join_failures => { r with join_failures := r.join_failures + amount }
  | .admins_found => { r with admins_found := r.admins_found + amount }
  | .dms_sent => { r with dms_sent := r.dms_sent + amount }
  | .dms_failed => { r with dms_failed := r.dms_failed + amount }
  | .responses_received => { r with responses_received := r.responses_received + amount }
  | .conversions => { r with conversions := r.conversions + amount }

/-- The whole SQLite database state of `LeadDatabase`.  Each table is the
list of its rows in insertion order; `next_*_id` carries the AUTOINCREMENT
counter (ids start at 1, as in SQLite). -/
structure DB where
  projects : List Project
  groups : List TGroup
  admins : List AdminRow
  messages : List MessageRow
  daily : List DailyRow
  next_project_id : Nat
  next_group_id : Nat
  next_admin_id : Nat
  next_message_id : Nat
  deriving Repr, DecidableEq

/-- A freshly created database (`_create_tables` on a new file). -/
def DB.empty : DB :=
  { projects := [], groups := [], admins := [], messages := [], daily := []
    next_project_id := 1, next_group_id := 1, next_admin_id := 1, next_message_id := 1 }

/-! ## Daily metrics (`_increment_daily_metric`, `get_daily_metrics`) -/

/-- `INSERT OR IGNORE INTO daily_metrics (date) VALUES (today)`. -/
def ensureDailyRow (db : DB) (today : String) : DB :=
  if db.daily.any (·.date == today) then db
  else { db with daily := db.daily ++ [{ date := today }] }

/-- `LeadDatabase._increment_daily_metric` (underscore dropped from the
source name): upsert today's row, then add `amount` to the named counter of
every row whose date is `today`. -/
def increment_daily_metric (db : DB) (metric : Metric) (amount : Nat) (today : String) : DB :=
  let db := ensureDailyRow db today
  { db with daily := db.daily.map (fun r => if r.date == today then r.inc metric amount else r) }

/-- Counter read-back: the named counter of the (first) `daily_metrics` row
of the given date, or the column default 0 when no row exists yet
(`get_daily_metrics` returns `None` in that case). -/
def getDailyMetric (db : DB) (m : Metric) (date : String) : Nat :=
  ((db.daily.find? (·.date == date)).map (·.get m)).getD 0

/-- Number of `daily_metrics` rows carrying the given date (the schema's
`date DATE UNIQUE` constraint demands this is at most 1). -/
def dailyCount (db : DB) (date : String) : Nat :=
  db.daily.countP (·.date == date)

/-! ## Project operations -/

/-- The dict handed to `add_project` by the scraper. -/
structure TokenData where
  address : Option String
  contract_address : Option String := none
  name : Option String := none
  symbol : Option String := none
  chain : Option String := none
  website : Option String := none
  telegram : Option String := none
  twitter : Option String := none
  dexscreener_url : Option String := none
  volume_24h : Option Rat := none
  liquidity : Option Rat := none
  market_cap : Option Rat := none
  age_hours : Option Rat := none
  source_url : Option String := none
  source_page : Option Int := none
  deriving Repr, DecidableEq

/-- `token_data.get('address', token_data.get('contract_address'))`. -/
def TokenData.key (t : TokenData) : Option String :=
  match t.address with
  | some a => some a
  | none => t.contract_address

/-- The `projects` row built by the `INSERT` of `add_project` (columns not in
the column list keep their SQL defaults). -/
def newProjectRow (db : DB) (t : TokenData) (a : String) (now : Int) : Project :=
  { id := db.next_project_id, contract_address := a, name := t.name,
    symbol := t.symbol, chain := t.chain.getD "solana", website := t.website,
    telegram_url := t.telegram, twitter_url := t.twitter,
    dexscreener_url := t.dexscreener_url, volume_24h := t.volume_24h,
    liquidity := t.liquidity, market_cap := t.market_cap,
    age_hours := t.age_hours, is_indexed := none, index_checked_at := none,
    status := "discovered", discovered_at := now, updated_at := now,
    source_url := t.source_url, source_page := t.source_page }

/-- `LeadDatabase.add_project`.  The `INSERT` raises `sqlite3.IntegrityError`
when the contract address duplicates an existing row (UNIQUE) or is `NULL`
(NOT NULL); the handler then looks the address up and returns the existing
id (`None` when the lookup finds nothing, as with a `NULL` key).  Metrics
are only incremented on the insert path. -/
def add_project (db : DB) (t : TokenData) (today : String) (now : Int) : DB × Option Nat :=
  match t.key with
  | none => (db, none)
  | some a =>
    if db.projects.any (·.contract_address == a) then
      (db, (db.projects.find? (·.contract_address == a)).map (·.id))
    else
      let p : Project := newProjectRow db t a now
      let db1 := { db with projects := db.projects ++ [p],
                           next_project_id := db.next_project_id + 1 }
      let db2 := increment_daily_metric db1 .tokens_found 1 today
      let db3 :=
        if truthy t.telegram then increment_daily_metric db2 .tokens_with_telegram 1 today
        else db2
      (db3, some p.id)

/-- `LeadDatabase.update_project_status`. -/
def update_project_status (db : DB) (pid : Nat) (status : String) (now : Int) : DB :=
  { db with projects := db.projects.map (fun p =>
      if p.id == pid then { p with status := status, updated_at := now } else p) }

/-- `LeadDatabase.update_index_status`. -/
def update_index_status (db : DB) (pid : Nat) (is_indexed : Bool) (today : String)
    (now : Int) : DB :=
  let db := { db with projects := db.projects.map (fun p =>
      if p.id == pid then { p with is_indexed := some is_indexed, index_checked_at := some now }
      else p) }
  if !is_indexed then increment_daily_metric db .unindexed_sites_found 1 today else db

/-- The `WHERE` clause of `get_uncontacted_projects`. -/
def uncontactedFilter (only_unindexed : Bool) (p : Project) : Bool :=
  p.status == "discovered" && p.telegram_url.isSome &&
    (!only_unindexed || p.is_indexed == some false)

/-- `LeadDatabase.get_uncontacted_projects`: filter, `ORDER BY discovered_at
DESC` (SQLite's tie order is unspecified; any stable sort is a faithful
model), `LIMIT limit`. -/
def get_uncontacted_projects (db : DB) (limit : Nat) (only_unindexed : Bool) : List Project :=
  (((db.projects.filter (uncontactedFilter only_unindexed)).insertionSort
      (fun p q => q.discovered_at ≤ p.discovered_at)).take limit)

/-! ## Group / admin / message operations -/

/-- `LeadDatabase.add_telegram_group`: insert a join attempt; on the
`UNIQUE(project_id, telegram_url)` conflict return `None` with no side
effect; otherwise on success bump `groups_joined` and advance the project
status to `"joined"`, on failure bump `join_failures`. -/
def add_telegram_group (db : DB) (pid : Nat) (url : String) (joined : Bool)
    (error : Option String) (today : String) (now : Int) : DB × Option Nat :=
  if db.groups.any (fun g => g.project_id == pid && g.telegram_url == url) then
    (db, none)
  else
    let g : TGroup := { id := db.next_group_id, project_id := pid, telegram_url := url,
                        joined_at := now, join_success := joined, join_error := error }
    let db1 := { db with groups := db.groups ++ [g], next_group_id := db.next_group_id + 1 }
    if joined then
      let db2 := increment_daily_metric db1 .groups_joined 1 today
      (update_project_status db2 pid "joined" now, some g.id)
    else
      (increment_daily_metric db1 .join_failures 1 today, some g.id)

/-- `LeadDatabase.add_admin`: idempotent on `(project_id, username)`;
`admins_found` is bumped only on first insert. -/
def add_admin (db : DB) (pid gid : Nat) (username : String) (user_id : Option String)
    (first_name : Option String) (is_owner : Bool) (today : String) :
    DB × Option Nat :=
  if db.admins.any (fun ad => ad.project_id == pid && ad.username == username) then
    (db, (db.admins.find? (fun ad => ad.project_id == pid && ad.username == username)).map (·.id))
  else
    let ad : AdminRow := { id := db.next_admin_id, project_id := pid, group_id := gid,
                           username := username, user_id := user_id,
                           first_name := first_name, is_owner := is_owner }
    let db1 := { db with admins := db.admins ++ [ad], next_admin_id := db.next_admin_id + 1 }
    (increment_daily_metric db1 .admins_found 1 today, some ad.id)

/-- `LeadDatabase.add_message`: unconditional insert (no uniqueness
constraint); on success bump `dms_sent` and advance status to
`"contacted"`, else bump `dms_failed`. -/
def add_message (db : DB) (pid : Nat) (admin_id : Option Nat) (text : String)
    (template : Option String) (success : Bool) (error : Option String)
    (today : String) (now : Int) : DB × Nat :=
  let m : MessageRow := { id := db.next_message_id, project_id := pid, admin_id := admin_id,
                          message_text := text, template_used := template, sent_at := now,
                          send_success := success, send_error := error,
                          response_received := false, response_text := none,
                          response_at := none }
  let db1 := { db with messages := db.messages ++ [m],
                       next_message_id := db.next_message_id + 1 }
  if success then
    let db2 := increment_daily_metric db1 .dms_sent 1 today
    (update_project_status db2 pid "contacted" now, m.id)
  else
    (increment_daily_metric db1 .dms_failed 1 today, m.id)

/-- `LeadDatabase.record_response`. -/
def record_response (db : DB) (mid : Nat) (text : String) (today : String) (now : Int) : DB :=
  let db := { db with messages := db.messages.map (fun m =>
      if m.id == mid then
        { m with response_received := true, response_text := some text, response_at := some now }
      else m) }
  increment_daily_metric db .responses_received 1 today

/-- `LeadDatabase.get_uncontacted_admins`: admins of the project with no
successful message row referencing them (the `LEFT JOIN ... m.id IS NULL`
pattern). -/
def get_uncontacted_admins (db : DB) (pid : Nat) : List AdminRow :=
  db.admins.filter (fun ad =>
    ad.project_id == pid &&
      !(db.messages.any (fun m => m.admin_id == some ad.id && m.send_success)))

/-! ## Summary statistics (`get_summary_stats`) -/

/-- `SELECT COUNT(*) FROM messages WHERE send_success = 1`. -/
def total_dms_sent (db : DB) : Nat := db.messages.countP (·.send_success)

/-- `SELECT COUNT(*) FROM messages WHERE response_received = 1`. -/
def responses_received_count (db : DB) : Nat := db.messages.countP (·.response_received)

/-- Round-half-to-even of the exact ratio `num / den` (`den > 0`), as Python
`round` does on the corresponding value. -/
def roundHalfEvenDiv (num den : Nat) : Nat :=
  let q := num / den
  let r := num % den
  if 2 * r < den then q
  else if den < 2 * r then q + 1
  else if q % 2 = 0 then q else q + 1

/-- `round(responses_received / total_dms_sent * 100, 1)` of
`get_summary_stats`, expressed exactly in tenths of a percent (the source
computes the same value over floats; here the ratio is kept exact). -/
def response_rate_tenths (db : DB) : Nat :=
  if 0 < total_dms_sent db then
    roundHalfEvenDiv (responses_received_count db * 1000) (total_dms_sent db)
  else 0

/-- The `response_rate` entry of `get_summary_stats`, as the rational
percentage (one-decimal value, or the guard value 0). -/
def response_rate (db : DB) : Rat := (response_rate_tenths db : Rat) / 10

/-! ## Rate limiter and Telegram automator (`telegram_automator.py`) -/

/-- The mutable state of a `TelegramAutomator`: configured delays and
ceilings, the two per-class sliding windows (`join_times` / `dm_times`), and
the session `stats` counters. -/
structure Automator where
  join_delay : Nat
  dm_delay : Nat
  max_joins_per_hour : Nat
  max_dms_per_hour : Nat
  join_times : List Int
  dm_times : List Int
  stats_groups_joined : Nat
  stats_join_failures : Nat
  stats_dms_sent : Nat
  stats_dm_failures : Nat
  stats_admins_found : Nat
  deriving Repr, DecidableEq

/-- Python `min` over a list; `min([])` raises, which the rate limiter only
reaches with a per-hour ceiling of 0 (the result 0 here is a sentinel for
that crashing corner). -/
def listMin : List Int → Int
  | [] => 0
  | x :: xs => xs.foldl min x

/-- Result of one `_can_join` / `_can_dm` check: the pruned window (written
back to the automator), the admission flag and the wait seconds. -/
structure RateCheck where
  times : List Int
  allowed : Bool
  wait : Int
  deriving Repr, DecidableEq

/-- The pruning step of `_can_join` / `_can_dm`: keep the timestamps of the
trailing hour (`t > now - 1h`). -/
def pruneWindow (times : List Int) (now : Int) : List Int :=
  times.filter (fun t => now - 3600 < t)

/-- Shared body of `TelegramAutomator._can_join` and `_can_dm` (the two
methods are verbatim clones over different fields): prune entries older than
one hour, deny when the remaining count reaches the ceiling, with the wait
time until the oldest retained entry leaves the window (timestamps are
integer seconds, so `int(...total_seconds())` is exact). -/
def slidingCheck (times : List Int) (limit : Nat) (now : Int) : RateCheck :=
  let pruned := pruneWindow times now
  if pruned.length ≥ limit then
    let oldest := listMin pruned
    ⟨pruned, false, max 0 (oldest + 3600 - now)⟩
  else
    ⟨pruned, true, 0⟩

/-- `TelegramAutomator._can_join` (underscore dropped): mutates
`self.join_times` to the pruned window and returns `(allowed, wait)`. -/
def can_join (a : Automator) (now : Int) : Automator × Bool × Int :=
  let rc := slidingCheck a.join_times a.max_joins_per_hour now
  ({ a with join_times := rc.times }, rc.allowed, rc.wait)

/-- `TelegramAutomator._can_dm` (underscore dropped). -/
def can_dm (a : Automator) (now : Int) : Automator × Bool × Int :=
  let rc := slidingCheck a.dm_times a.max_dms_per_hour now
  ({ a with dm_times := rc.times }, rc.allowed, rc.wait)

/-- `[a-zA-Z0-9_]` of the extraction regexes. -/
def isWordChar (c : Char) : Bool := c.isAlphanum || c == '_'

/-- Greedy `([a-zA-Z0-9_]+)` capture: the maximal word-character run. -/
def takeWordRun : List Char → List Char
  | [] => []
  | c :: cs => if isWordChar c then c :: takeWordRun cs else []

/-- Leftmost `re.search` of a literal prefix followed by `([a-zA-Z0-9_]+)`:
scan positions left to right; a position matches when the literal prefix
occurs there followed by at least one word character. -/
def findCapture (pre : List Char) : List Char → Option (List Char)
  | [] => none
  | s@(_ :: rest) =>
    if pre.isPrefixOf s then
      let run := takeWordRun (s.drop pre.length)
      if run.isEmpty then findCapture pre rest else some run
    else findCapture pre rest

def matchPattern (pre : String) (url : String) : Option String :=
  (findCapture pre.toList url.toList).map (fun cs => String.mk cs)

/-- Python `str.lower` (character-wise, over the ASCII usernames the
extraction regexes can produce). -/
def strToLower (s : String) : String := String.mk (s.toList.map Char.toLower)

/-- `username.lower() in ['joinchat', 'share', 'addstickers']`. -/
def bannedUsername (s : String) : Bool :=
  strToLower s == "joinchat" || strToLower s == "share" || strToLower s == "addstickers"

/-- The pattern loop of `_extract_username`; note that the source's
`continue` on a banned capture moves to the NEXT PATTERN, not to later
matches of the same pattern. -/
def tryPatterns : List String → String → Option String
  | [], _ => none
  | p :: ps, u =>
    match matchPattern p u with
    | some username => if bannedUsername username then tryPatterns ps u else some username
    | none => tryPatterns ps u

/-- `TelegramAutomator._extract_username` (underscore dropped): `None`/empty
URL yields `None`; otherwise the three regexes `t\.me/(...)`,
`telegram\.me/(...)`, `@(...)` are tried in order. -/
def extract_username (url : String) : Option String :=
  if url == "" then none
  else tryPatterns ["t.me/", "telegram.me/", "@"] url

/-- The typed telethon errors the automator catches. -/
inductive TgError
  | floodWait (seconds : Int)
  | channelPrivate
  | usernameInvalid
  | privacyRestricted
  | notMutualContact
  | peerFlood
  | generic (msg : String)
  deriving Repr, DecidableEq

/-- `str(e)` surrogate used by the catch-all `except Exception` handlers. -/
def errText : TgError → String
  | .floodWait s => "FloodWaitError " ++ toString s
  | .channelPrivate => "ChannelPrivateError"
  | .usernameInvalid => "UsernameInvalidError"
  | .privacyRestricted => "UserPrivacyRestrictedError"
  | .notMutualContact => "UserNotMutualContactError"
  | .peerFlood => "PeerFloodError"
  | .generic msg => msg

/-- What `client.get_entity` resolves to: a `Channel`/`Chat`, or anything
else (`User`, ...). -/
inductive Entity
  | channelOrChat
  | other
  deriving Repr, DecidableEq

/-- Outcomes of the external telethon calls made by `join_group`:
`get_entity`, the `get_participants` membership probe (any exception there
falls into `pass`, so only membership matters), and `JoinChannelRequest`. -/
structure JoinEnv where
  getEntity : Except TgError Entity
  isMember : Bool
  joinRequest : Except TgError Unit
  deriving Repr

/-- Result of one `join_group` / `send_dm` call: automator state after the
call, the `asyncio.sleep` durations performed, the returned
`(success, error)` pair, and (for DMs) the text handed to
`client.send_message`. -/
structure CallResult where
  auto : Automator
  sleeps : List Nat
  ok : Bool
  error : Option String
  sent : Option String
  deriving Repr, DecidableEq

/-- `TelegramAutomator.join_group`. -/
def join_group (a : Automator) (env : JoinEnv) (telegram_url : String) (now : Int) :
    CallResult :=
  match extract_username telegram_url with
  | none => ⟨a, [], false, some ("Could not extract username from " ++ telegram_url), none⟩
  | some _ =>
    let r := can_join a now
    if !r.2.1 then
      ⟨r.1, [], false, some ("Rate limited, wait " ++ toString r.2.2 ++ "s"), none⟩
    else
      match env.getEntity with
      | .error (.floodWait s) =>
        ⟨r.1, [], false, some ("FloodWait: " ++ toString s ++ "s"), none⟩
      | .error .channelPrivate => ⟨r.1, [], false, some "Private channel", none⟩
      | .error .usernameInvalid => ⟨r.1, [], false, some "Invalid username", none⟩
      | .error e =>
        ⟨{ r.1 with stats_join_failures := r.1.stats_join_failures + 1 }, [], false,
          some (errText e), none⟩
      | .ok ent =>
        if ent != Entity.channelOrChat then
          ⟨r.1, [], false, some "Not a group/channel", none⟩
        else if env.isMember then
          ⟨r.1, [], true, none, none⟩
        else
          match env.joinRequest with
          | .ok _ =>
            ⟨{ r.1 with join_times := r.1.join_times ++ [now],
                        stats_groups_joined := r.1.stats_groups_joined + 1 },
              [r.1.join_delay], true, none, none⟩
          | .error (.floodWait s) =>
            ⟨r.1, [], false, some ("FloodWait: " ++ toString s ++ "s"), none⟩
          | .error .channelPrivate => ⟨r.1, [], false, some "Private channel", none⟩
          | .error .usernameInvalid => ⟨r.1, [], false, some "Invalid username", none⟩
          | .error e =>
            ⟨{ r.1 with stats_join_failures := r.1.stats_join_failures + 1 }, [], false,
              some (errText e), none⟩

/-- Python `'pat' in s` substring test. -/
def strContains (s pat : String) : Bool := decide (pat.toList <:+: s.toList)

/-- Python `str.replace` over character lists: replace every non-overlapping
occurrence of `pat`, scanning left to right; the fuel argument (instantiated
with the subject's length, which bounds the recursion depth) keeps the
recursion structural. -/
def replaceAllFuel (pat rep : List Char) : Nat → List Char → List Char
  | 0, s => s
  | _, [] => []
  | fuel + 1, c :: cs =>
    if !pat.isEmpty && pat.isPrefixOf (c :: cs) then
      rep ++ replaceAllFuel pat rep fuel ((c :: cs).drop pat.length)
    else c :: replaceAllFuel pat rep fuel cs

/-- Python `s.replace(pat, rep)` (for the non-empty pattern literals the
automator uses; an empty pattern is returned unchanged here). -/
def pyReplace (s pat rep : String) : String :=
  if pat.toList.isEmpty then s
  else String.mk (replaceAllFuel pat.toList rep.toList s.toList.length s.toList)

/-- The personalisation block of `send_dm`: `{admin_name_greeting}` (when
present) is replaced by the empty string, then `{project_name}` /
`{token_symbol}` by the truthy name/symbol (`str.replace` replaces every
occurrence). -/
def personalize (message : String) (project_name token_symbol : Option String) : String :=
  let m1 := if strContains message "{admin_name_greeting}"
            then pyReplace message "{admin_name_greeting}" "" else message
  let m2 := match project_name with
            | some n => if n == "" then m1 else pyReplace m1 "{project_name}" n
            | none => m1
  match token_symbol with
  | some s => if s == "" then m2 else pyReplace m2 "{token_symbol}" s
  | none => m2

/-- Combined outcome of `get_entity(username)` + `send_message` in
`send_dm`; `ok` means the message was handed to the client successfully. -/
structure DmEnv where
  outcome : Except TgError Unit
  deriving Repr

/-- `TelegramAutomator.send_dm`. -/
def send_dm (a : Automator) (env : DmEnv) (username : String) (message : String)
    (project_name token_symbol : Option String) (now : Int) : CallResult :=
  let r := can_dm a now
  if !r.2.1 then
    ⟨r.1, [], false, some ("Rate limited, wait " ++ toString r.2.2 ++ "s"), none⟩
  else
    let finalMessage := personalize message project_name token_symbol
    match env.outcome with
    | .ok _ =>
      ⟨{ r.1 with dm_times := r.1.dm_times ++ [now],
                  stats_dms_sent := r.1.stats_dms_sent + 1 },
        [r.1.dm_delay], true, none, some finalMessage⟩
    | .error .privacyRestricted =>
      ⟨{ r.1 with stats_dm_failures := r.1.stats_dm_failures + 1 }, [], false,
        some "Privacy restricted", none⟩
    | .error .notMutualContact =>
      ⟨{ r.1 with stats_dm_failures := r.1.stats_dm_failures + 1 }, [], false,
        some "Not mutual contact", none⟩
    | .error .peerFlood =>
      ⟨{ r.1 with stats_dm_failures := r.1.stats_dm_failures + 1 }, [], false,
        some "Peer flood", none⟩
    | .error (.floodWait s) =>
      ⟨r.1, [], false, some ("FloodWait: " ++ toString s ++ "s"), none⟩
    | .error e =>
      ⟨{ r.1 with stats_dm_failures := r.1.stats_dm_failures + 1 }, [], false,
        some (errText e), none⟩

/-- One admin dict as returned by `get_group_admins` (bots and username-less
participants already filtered out by that method). -/
structure AdminInfo where
  username : String
  user_id : Int
  first_name : String
  is_owner : Bool
  deriving Repr, DecidableEq

/-- External outcomes consumed by one `process_project` call. -/
structure ProcEnv where
  join : JoinEnv
  admins : List AdminInfo
  dm : DmEnv
  deriving Repr

/-- The project dict handed to `process_project` (built from a Store row,
which has a `telegram_url` key and no `telegram` key). -/
structure ProjectDict where
  id : Nat
  name : Option String
  symbol : Option String
  telegram_url : Option String
  telegram : Option String
  deriving Repr, DecidableEq

def Project.toDict (p : Project) : ProjectDict :=
  ⟨p.id, p.name, p.symbol, p.telegram_url, none⟩

/-- The result dict of `process_project`. -/
structure ProcessResult where
  project_id : Nat
  name : Option String
  symbol : Option String
  joined : Bool
  admins_found : Nat
  dm_sent : Bool
  error : Option String
  deriving Repr, DecidableEq

/-- Full outcome of one `process_project` call: automator and database
state, sleeps performed, and the result dict. -/
structure ProcOut where
  auto : Automator
  db : DB
  sleeps : List Nat
  res : ProcessResult
  deriving Repr, DecidableEq

/-- Python truthiness of an optional row id (`None` and `0` are falsy). -/
def truthyNat : Option Nat → Bool
  | some n => !(n == 0)
  | none => false

/-- The admin-recording loop of `process_project`. -/
def recordAdmins (db : DB) (pid gid : Nat) (admins : List AdminInfo) (today : String) : DB :=
  admins.foldl
    (fun d ad => (add_admin d pid gid ad.username (some (toString ad.user_id))
        (some ad.first_name) ad.is_owner today).1) db

/-- The admin-id lookup loop of `process_project` (first uncontacted admin
with the target's username). -/
def lookupAdminId (db : DB) (pid : Nat) (username : String) : Option Nat :=
  ((get_uncontacted_admins db pid).find? (·.username == username)).map (·.id)

/-- `TelegramAutomator.process_project` with a database present (the
pipeline always passes one).  All `datetime.now()` readings within the call
are modelled as the single instant `now`. -/
def process_project (a : Automator) (db : DB) (proj : ProjectDict) (template : String)
    (env : ProcEnv) (today : String) (now : Int) : ProcOut :=
  let base : ProcessResult := ⟨proj.id, proj.name, proj.symbol, false, 0, false, none⟩
  let tgUrl := pyOr proj.telegram_url proj.telegram
  if !truthy tgUrl then
    ⟨a, db, [], { base with error := some "No Telegram URL" }⟩
  else
    let url := tgUrl.getD ""
    let jr := join_group a env.join url now
    if !jr.ok then
      ⟨jr.auto, (add_telegram_group db proj.id url false jr.error today now).1, jr.sleeps,
        { base with joined := false, error := some ("Join failed: " ++ pyStr jr.error) }⟩
    else
      let gr := add_telegram_group db proj.id url true none today now
      let admins := env.admins
      let a2 := { jr.auto with stats_admins_found := jr.auto.stats_admins_found + admins.length }
      if admins.isEmpty then
        ⟨a2, gr.1, jr.sleeps, { base with joined := true, error := some "No admins found" }⟩
      else
        let db2 := if truthyNat gr.2 then
            recordAdmins gr.1 proj.id (gr.2.getD 0) admins today else gr.1
        let target := (admins.find? (·.is_owner)).getD (admins.headD ⟨"", 0, "", false⟩)
        let dr := send_dm a2 env.dm target.username template proj.name proj.symbol now
        let adminId := lookupAdminId db2 proj.id target.username
        ⟨dr.auto,
         (add_message db2 proj.id adminId template (some "default") dr.ok dr.error today now).1,
         jr.sleeps ++ dr.sleeps,
         { base with joined := true, admins_found := admins.length, dm_sent := dr.ok,
                     error := if dr.ok then none else some ("DM failed: " ++ pyStr dr.error) }⟩

/-! ## Cycle controller dedup (`autonomous_scraper._scrape_cycle`) -/

/-- The `skip_addresses` set built at the top of `_scrape_cycle`: truthy
contract addresses of `get_uncontacted_projects(limit=1000,
only_unindexed=False)` — NOT of all stored Leads. -/
def scrapeSkipAddresses (db : DB) : List String :=
  ((get_uncontacted_projects db 1000 false).map (·.contract_address)).filter (· != "")

/-- The new-token accumulation loop of `_scrape_cycle`: keep a candidate
when its `address` is not in the skip set, adding kept addresses to the set
(a candidate with no `address` key would raise `KeyError` at
`skip_addresses.add` in the source; here it is passed through). -/
def scrapeNewTokensGo (skip : List String) : List TokenData → List TokenData
  | [] => []
  | t :: ts =>
    match t.address with
    | some addr =>
      if skip.contains addr then scrapeNewTokensGo skip ts
      else t :: scrapeNewTokensGo (addr :: skip) ts
    | none => t :: scrapeNewTokensGo skip ts

/-- Candidates surviving `_scrape_cycle`'s dedup, in order; exactly these
are subsequently passed to `add_project`. -/
def scrapeNewTokens (db : DB) (tokens : List TokenData) : List TokenData :=
  scrapeNewTokensGo (scrapeSkipAddresses db) tokens

/-! ## Concrete inputs used by witnesses -/

/-- A concrete discovery candidate with a group link. -/
def tokA : TokenData :=
  { address := some "CA1", name := some "Alpha", symbol := some "ALP",
    telegram := some "https://t.me/alphagroup" }

/-- A concrete discovery candidate without a group link. -/
def tokB : TokenData :=
  { address := some "CA2", name := some "Beta", symbol := some "BET" }

/-- A concrete automator as configured by the daemon defaults
(`join_delay=30`, `dm_delay=60`, `max_joins_per_hour=10`,
`max_dms_per_hour=5`), with empty windows and zeroed session stats. -/
def autoW : Automator :=
  { join_delay := 30, dm_delay := 60, max_joins_per_hour := 10, max_dms_per_hour := 5,
    join_times := [], dm_times := [], stats_groups_joined := 0, stats_join_failures := 0,
    stats_dms_sent := 0, stats_dm_failures := 0, stats_admins_found := 0 }

/-- Join environment: the entity resolves to a group and the client is
already a member. -/
def envMember : JoinEnv := ⟨Except.ok Entity.channelOrChat, true, Except.ok ()⟩

/-- Join environment: the entity resolves to a group, the client is not a
member, and the join request succeeds. -/
def envNewJoin : JoinEnv := ⟨Except.ok Entity.channelOrChat, false, Except.ok ()⟩

/-- DM environment: the send succeeds. -/
def dmOk : DmEnv := ⟨Except.ok ()⟩

/-- A database holding the single freshly inserted lead `tokA` (id 1). -/
def dbOneLead : DB := (add_project DB.empty tokA "2026-10-12" 0).1

/-- `dbOneLead`'s row as the dict handed to `process_project`. -/
def projAlpha : ProjectDict :=
  ⟨1, some "Alpha", some "ALP", some "https://t.me/alphagroup", none⟩

/-- Process environment: member join, no admins found, send would succeed. -/
def envProcNoAdmins : ProcEnv := ⟨envMember, [], dmOk⟩

/-- One group-owner admin. -/
def adminBob : AdminInfo := ⟨"bob", 42, "Bob", true⟩

/-- Process environment: member join, one owner admin, successful send. -/
def envProcBob : ProcEnv := ⟨envMember, [adminBob], dmOk⟩

/-- `dbOneLead` after a successful group join: the lead's status is
`"joined"`, so it is no longer among the uncontacted leads. -/
def dbJoinedLead : DB :=
  (add_telegram_group dbOneLead 1 "https://t.me/alphagroup" true none "2026-10-12" 0).1

/-- A database with three successful outreach messages, one of which got a
response. -/
def dbThreeMsgs : DB :=
  { DB.empty with messages := [
      ⟨1, 1, some 1, "hi", some "default", 0, true, none, true, none, none⟩,
      ⟨2, 1, some 1, "hi", some "default", 0, true, none, false, none, none⟩,
      ⟨3, 1, some 1, "hi", some "default", 0, true, none, false, none, none⟩] }

/-! ## Pipeline step relation and Lead status order (`autonomous_scraper`) -/

/-- Forward order along the Lead lifecycle chain `discovered → joined →
contacted → {responded, converted}` (reflexive; `responded` and
`converted` are alternative endpoints, not ordered between themselves). -/
def statusLe (s t : String) : Bool :=
  s == t ||
  (s == "discovered" && (t == "joined" || t == "contacted" || t == "responded" ||
    t == "converted")) ||
  (s == "joined" && (t == "contacted" || t == "responded" || t == "converted")) ||
  (s == "contacted" && (t == "responded" || t == "converted"))

/-- Store well-formedness maintained by every pipeline action: project ids
stay below the AUTOINCREMENT counter and are pairwise distinct. -/
def WF (db : DB) : Prop :=
  (∀ p ∈ db.projects, p.id < db.next_project_id) ∧
  db.projects.Pairwise (fun p q => p.id ≠ q.id)

instance (db : DB) : Decidable (WF db) :=
  inferInstanceAs (Decidable ((∀ p ∈ db.projects, p.id < db.next_project_id) ∧
    db.projects.Pairwise (fun p q : Project => p.id ≠ q.id)))

/-- The per-row effect of `update_project_status pid s now`. -/
def updStatus (pid : Nat) (s : String) (now : Int) (p : Project) : Project :=
  if p.id == pid then { p with status := s, updated_at := now } else p

/-- The per-row effect of `update_index_status pid b now`. -/
def updIndex (pid : Nat) (b : Bool) (now : Int) (p : Project) : Project :=
  if p.id == pid then { p with is_indexed := some b, index_checked_at := some now }
  else p

/-- A projects-table rewrite produced by processing the project `pid`: rows
of other projects are untouched, and every row keeps its id and contract
address and either keeps its status or moves it to `"joined"` or
`"contacted"`. -/
def GoodUpd (pid : Nat) (g : Project → Project) : Prop :=
  (∀ q, q.id ≠ pid → g q = q) ∧
  ∀ q, (g q).id = q.id ∧ (g q).contract_address = q.contract_address ∧
    ((g q).status = q.status ∨ (g q).status = "joined" ∨ (g q).status = "contacted")

/-- A row rewrite that keeps ids and contract addresses. -/
def IdPres (g : Project → Project) : Prop :=
  ∀ q, (g q).id = q.id ∧ (g q).contract_address = q.contract_address

/-- The sequential loop of `_scrape_cycle` over one selected batch: process
each project in turn, threading the automator and the store; each processed
project consumes one record of external outcomes. -/
def processProjectsGo (template today : String) (now : Int) :
    Automator → DB → List (ProjectDict × ProcEnv) → Automator × DB
  | a, db, [] => (a, db)
  | a, db, (proj, env) :: rest =>
    let o := process_project a db proj template env today now
    processProjectsGo template today now o.auto o.db rest

/-- One outreach pass of `_scrape_cycle`: select the uncontacted batch with
`get_uncontacted_projects`, then process each selected project in turn. -/
def processBatch (a : Automator) (db : DB) (limit : Nat) (onlyUn : Bool)
    (template : String) (envs : List ProcEnv) (today : String) (now : Int) :
    Automator × DB :=
  processProjectsGo template today now a db
    (((get_uncontacted_projects db limit onlyUn).map Project.toDict).zip envs)

/-- One store-affecting action of the autonomous pipeline, as
`autonomous_scraper` invokes the store: inserting a discovered candidate,
updating a Lead's Google-index flag, one outreach pass over a freshly
selected uncontacted batch, or recording a response to a message. -/
inductive PipeStep : DB → DB → Prop where
  | addProject (db : DB) (t : TokenData) (today : String) (now : Int) :
      PipeStep db (add_project db t today now).1
  | indexStatus (db : DB) (pid : Nat) (b : Bool) (today : String) (now : Int) :
      PipeStep db (update_index_status db pid b today now)
  | outreach (db : DB) (a : Automator) (limit : Nat) (onlyUn : Bool)
      (template : String) (envs : List ProcEnv) (today : String) (now : Int) :
      PipeStep db (processBatch a db limit onlyUn template envs today now).2
  | response (db : DB) (mid : Nat) (text : String) (today : String) (now : Int) :
      PipeStep db (record_response db mid text today now)

/-- Reachability by a finite sequence of pipeline actions. -/
def PipeReach : DB → DB → Prop := Relation.ReflTransGen PipeStep

/-! ## Basic lemmas about the metrics layer -/

theorem DailyRow.date_inc (r : DailyRow) (m : Metric) (k : Nat) :
    (r.inc m k).date = r.date := by
  cases m <;> rfl

theorem DailyRow.get_inc_same (r : DailyRow) (m : Metric) (k : Nat) :
    (r.inc m k).get m = r.get m + k := by
  cases m <;> rfl

theorem DailyRow.get_inc_ne (r : DailyRow) (m m' : Metric) (k : Nat) (h : m' ≠ m) :
    (r.inc m k).get m' = r.get m' := by
  cases m <;> cases m' <;> first | rfl | exact absurd rfl h

theorem DailyRow.get_fresh (d : String) (m : Metric) : ({ date := d } : DailyRow).get m = 0 := by
  cases m <;> rfl

theorem increment_projects (db : DB) (m : Metric) (k : Nat) (d : String) :
    (increment_daily_metric db m k d).projects = db.projects := by
  simp only [increment_daily_metric, ensureDailyRow]
  split <;> rfl

theorem increment_groups (db : DB) (m : Metric) (k : Nat) (d : String) :
    (increment_daily_metric db m k d).groups = db.groups := by
  simp only [increment_daily_metric, ensureDailyRow]
  split <;> rfl

theorem increment_admins (db : DB) (m : Metric) (k : Nat) (d : String) :
    (increment_daily_metric db m k d).admins = db.admins := by
  simp only [increment_daily_metric, ensureDailyRow]
  split <;> rfl

theorem increment_messages (db : DB) (m : Metric) (k : Nat) (d : String) :
    (increment_daily_metric db m k d).messages = db.messages := by
  simp only [increment_daily_metric, ensureDailyRow]
  split <;> rfl

theorem increment_next_project_id (db : DB) (m : Metric) (k : Nat) (d : String) :
    (increment_daily_metric db m k d).next_project_id = db.next_project_id := by
  simp only [increment_daily_metric, ensureDailyRow]
  split <;> rfl

theorem increment_next_group_id (db : DB) (m : Metric) (k : Nat) (d : String) :
    (increment_daily_metric db m k d).next_group_id = db.next_group_id := by
  simp only [increment_daily_metric, ensureDailyRow]
  split <;> rfl

theorem increment_next_admin_id (db : DB) (m : Metric) (k : Nat) (d : String) :
    (increment_daily_metric db m k d).next_admin_id = db.next_admin_id := by
  simp only [increment_daily_metric, ensureDailyRow]
  split <;> rfl

theorem increment_next_message_id (db : DB) (m : Metric) (k : Nat) (d : String) :
    (increment_daily_metric db m k d).next_message_id = db.next_message_id := by
  simp only [increment_daily_metric, ensureDailyRow]
  split <;> rfl

theorem find?_map_incRow (l : List DailyRow) (d : String) (m : Metric) (k : Nat) :
    (l.map (fun r => if r.date == d then r.inc m k else r)).find? (·.date == d) =
      (l.find? (·.date == d)).map (fun r => r.inc m k) := by
  induction l with
  | nil => rfl
  | cons r t ih =>
    rw [List.map_cons]
    simp only [List.find?]
    by_cases h : r.date = d
    · have hb : (r.date == d) = true := by simpa using h
      rw [if_pos hb, DailyRow.date_inc, hb]
      rfl
    · have hb : (r.date == d) = false := by simpa using h
      rw [if_neg (by simp [hb]), hb]
      exact ih

theorem find?_map_incRow_ne (l : List DailyRow) (d d' : String) (m : Metric) (k : Nat)
    (h : d' ≠ d) :
    (l.map (fun r => if r.date == d then r.inc m k else r)).find? (·.date == d') =
      l.find? (·.date == d') := by
  induction l with
  | nil => rfl
  | cons r t ih =>
    rw [List.map_cons]
    simp only [List.find?]
    by_cases hd : r.date = d
    · have hb : (r.date == d) = true := by simpa using hd
      have hb' : (r.date == d') = false := by
        simp only [beq_eq_false_iff_ne, ne_eq, hd]
        exact fun hc => h hc.symm
      rw [if_pos hb, DailyRow.date_inc, hb']
      exact ih
    · have hb : (r.date == d) = false := by simpa using hd
      rw [if_neg (by simp [hb])]
      by_cases hd' : r.date = d'
      · have hb' : (r.date == d') = true := by simpa using hd'
        rw [hb']
      · have hb' : (r.date == d') = false := by simpa using hd'
        rw [hb']
        exact ih

theorem ensureDailyRow_daily (db : DB) (d : String) :
    (ensureDailyRow db d).daily =
      if db.daily.any (·.date == d) then db.daily else db.daily ++ [{ date := d }] := by
  unfold ensureDailyRow
  split <;> simp_all

theorem increment_daily (db : DB) (m : Metric) (k : Nat) (d : String) :
    (increment_daily_metric db m k d).daily =
      ((if db.daily.any (·.date == d) then db.daily else db.daily ++ [{ date := d }]).map
        (fun r => if r.date == d then r.inc m k else r)) := by
  unfold increment_daily_metric
  rw [← ensureDailyRow_daily]

theorem find?_none_of_any_false (db : DB) (d : String)
    (h : ¬ db.daily.any (·.date == d) = true) :
    db.daily.find? (·.date == d) = none := by
  rw [List.find?_eq_none]
  intro x hx hpx
  rw [List.any_eq_true] at h
  exact h ⟨x, hx, hpx⟩

theorem getDailyMetric_inc_same (db : DB) (m : Metric) (k : Nat) (d : String) :
    getDailyMetric (increment_daily_metric db m k d) m d = getDailyMetric db m d + k := by
  unfold getDailyMetric
  rw [increment_daily]
  by_cases h : db.daily.any (·.date == d)
  · rw [if_pos h, find?_map_incRow]
    rcases hf : db.daily.find? (·.date == d) with _ | r
    · rw [List.find?_eq_none] at hf
      rw [List.any_eq_true] at h
      obtain ⟨x, hx, hpx⟩ := h
      exact absurd hpx (hf x hx)
    · rw [hf]
      simp [DailyRow.get_inc_same]
  · rw [if_neg h, find?_map_incRow, List.find?_append, find?_none_of_any_false db d h]
    simp [List.find?, DailyRow.get_inc_same, DailyRow.get_fresh]

theorem getDailyMetric_inc_date_ne (db : DB) (m : Metric) (k : Nat) (d d' : String)
    (h : d' ≠ d) (m' : Metric) :
    getDailyMetric (increment_daily_metric db m k d) m' d' = getDailyMetric db m' d' := by
  unfold getDailyMetric
  rw [increment_daily]
  by_cases hany : db.daily.any (·.date == d)
  · rw [if_pos hany, find?_map_incRow_ne _ _ _ _ _ h]
  · rw [if_neg hany, find?_map_incRow_ne _ _ _ _ _ h, List.find?_append]
    have hdd : (d == d') = false := by
      simp only [beq_eq_false_iff_ne, ne_eq]
      exact fun hc => h hc.symm
    have hone : ([({ date := d } : DailyRow)].find? (·.date == d')) = none := by
      simp [List.find?, hdd]
    rw [hone]
    cases db.daily.find? (·.date == d') <;> rfl

theorem getDailyMetric_inc_metric_ne (db : DB) (m : Metric) (k : Nat) (d : String)
    (m' : Metric) (hm : m' ≠ m) (d' : String) :
    getDailyMetric (increment_daily_metric db m k d) m' d' = getDailyMetric db m' d' := by
  by_cases hd : d' = d
  · subst hd
    unfold getDailyMetric
    rw [increment_daily]
    by_cases h : db.daily.any (·.date == d')
    · rw [if_pos h, find?_map_incRow]
      cases hf : db.daily.find? (·.date == d')
      · rfl
      · simp [DailyRow.get_inc_ne _ _ _ _ hm]
    · rw [if_neg h, find?_map_incRow, List.find?_append, find?_none_of_any_false db d' h]
      simp [List.find?, DailyRow.get_inc_ne _ _ _ _ hm, DailyRow.get_fresh]
  · exact getDailyMetric_inc_date_ne db m k d d' hd m'

theorem find?_eq_none_of_any_false {α} (l : List α) (p : α → Bool) (h : l.any p = false) :
    l.find? p = none := by
  rw [List.find?_eq_none]
  intro x hx hpx
  have := List.any_eq_true.mpr ⟨x, hx, hpx⟩
  rw [h] at this
  exact Bool.noConfusion this

theorem dates_ne_of_any_false {l : List DailyRow} {d : String}
    (h : l.any (·.date == d) = false) : ∀ r ∈ l, r.date ≠ d := by
  intro r hr hcontra
  have hb : ((fun x : DailyRow => x.date == d) r) = true := beq_iff_eq.mpr hcontra
  have hany : l.any (·.date == d) = true := by
    rw [List.any_eq_true]
    exact ⟨r, hr, hb⟩
  rw [h] at hany
  exact Bool.noConfusion hany

theorem incRow_date (r : DailyRow) (m : Metric) (k : Nat) (d : String) :
    ((if r.date == d then r.inc m k else r) : DailyRow).date = r.date := by
  split
  · exact DailyRow.date_inc r m k
  · rfl

theorem increment_daily_pairwise (db : DB) (m : Metric) (k : Nat) (d : String)
    (h : db.daily.Pairwise (fun r s => r.date ≠ s.date)) :
    (increment_daily_metric db m k d).daily.Pairwise (fun r s => r.date ≠ s.date) := by
  rw [increment_daily]
  by_cases hany : db.daily.any (·.date == d)
  · rw [if_pos hany]
    exact h.map _ (fun a b hab => by rwa [incRow_date, incRow_date])
  · rw [if_neg hany]
    refine List.Pairwise.map _ (fun a b hab => by rwa [incRow_date, incRow_date]) ?_
    rw [List.pairwise_append]
    refine ⟨h, List.pairwise_singleton _ _, ?_⟩
    intro x hx b hb
    rw [List.mem_singleton] at hb
    subst hb
    have hfalse : db.daily.any (·.date == d) = false := by
      revert hany; cases db.daily.any (·.date == d) <;> simp
    exact dates_ne_of_any_false hfalse x hx

theorem countP_map_incRow (l : List DailyRow) (d d' : String) (m : Metric) (k : Nat) :
    (l.map (fun r => if r.date == d then r.inc m k else r)).countP (·.date == d') =
      l.countP (·.date == d') := by
  rw [List.countP_map]
  congr 1
  funext r
  simp only [Function.comp]
  rw [incRow_date]

theorem dailyCount_inc_same (db : DB) (m : Metric) (k : Nat) (d : String) :
    dailyCount (increment_daily_metric db m k d) d = max 1 (dailyCount db d) := by
  unfold dailyCount
  rw [increment_daily]
  by_cases hany : db.daily.any (·.date == d)
  · rw [if_pos hany, countP_map_incRow]
    have hpos : 0 < db.daily.countP (·.date == d) :=
      List.countP_pos_iff.mpr (List.any_eq_true.mp hany)
    exact (Nat.max_eq_right hpos).symm
  · rw [if_neg hany, List.map_append, List.countP_append, countP_map_incRow]
    have hfalse : db.daily.any (·.date == d) = false := by
      revert hany; cases db.daily.any (·.date == d) <;> simp
    have h0 : db.daily.countP (·.date == d) = 0 :=
      List.countP_eq_zero.mpr (fun r hr => by simp [dates_ne_of_any_false hfalse r hr])
    rw [h0]
    simp [List.countP_cons, incRow_date, DailyRow.date_inc, List.countP_nil]

theorem dailyCount_inc_ne (db : DB) (m : Metric) (k : Nat) (d d' : String) (h : d' ≠ d) :
    dailyCount (increment_daily_metric db m k d) d' = dailyCount db d' := by
  unfold dailyCount
  rw [increment_daily]
  by_cases hany : db.daily.any (·.date == d)
  · rw [if_pos hany, countP_map_incRow]
  · rw [if_neg hany, List.map_append, List.countP_append, countP_map_incRow]
    have hdd : d ≠ d' := fun hc => h hc.symm
    simp [List.countP_cons, incRow_date, DailyRow.date_inc, List.countP_nil, hdd]

/-! ## Lemmas about `add_project` -/

theorem add_project_dup (db : DB) (t : TokenData) (a : String) (hkey : t.key = some a)
    (h : db.projects.any (·.contract_address == a) = true) (d : String) (n : Int) :
    add_project db t d n = (db, (db.projects.find? (·.contract_address == a)).map (·.id)) := by
  simp only [add_project, hkey]
  rw [if_pos h]

theorem add_project_fresh (db : DB) (t : TokenData) (a : String) (hkey : t.key = some a)
    (h : db.projects.any (·.contract_address == a) = false) (d : String) (n : Int) :
    (add_project db t d n).1.projects = db.projects ++ [newProjectRow db t a n] ∧
    (add_project db t d n).1.groups = db.groups ∧
    (add_project db t d n).1.admins = db.admins ∧
    (add_project db t d n).1.messages = db.messages ∧
    (add_project db t d n).1.next_project_id = db.next_project_id + 1 ∧
    (add_project db t d n).2 = some db.next_project_id := by
  simp only [add_project, hkey]
  rw [if_neg (by simp [h])]
  cases ht : truthy t.telegram <;>
    simp [ht, increment_projects, increment_groups, increment_admins, increment_messages,
          increment_next_project_id, newProjectRow]

theorem add_project_fresh_eq (db : DB) (t : TokenData) (a : String) (hkey : t.key = some a)
    (h : db.projects.any (·.contract_address == a) = false) (d : String) (n : Int) :
    add_project db t d n =
      (if truthy t.telegram then
         increment_daily_metric
           (increment_daily_metric
             { db with projects := db.projects ++ [newProjectRow db t a n],
                       next_project_id := db.next_project_id + 1 }
             .tokens_found 1 d)
           .tokens_with_telegram 1 d
       else
         increment_daily_metric
           { db with projects := db.projects ++ [newProjectRow db t a n],
                     next_project_id := db.next_project_id + 1 }
           .tokens_found 1 d,
       some db.next_project_id) := by
  simp only [add_project, hkey]
  rw [if_neg (by simp [h])]
  rfl

theorem add_project_fresh_tokens_found (db : DB) (t : TokenData) (a : String)
    (hkey : t.key = some a) (h : db.projects.any (·.contract_address == a) = false)
    (d : String) (n : Int) :
    getDailyMetric (add_project db t d n).1 .tokens_found d =
      getDailyMetric db .tokens_found d + 1 := by
  rw [add_project_fresh_eq db t a hkey h d n]
  dsimp only
  cases ht : truthy t.telegram
  · rw [if_neg (by decide), getDailyMetric_inc_same]
    rfl
  · rw [if_pos rfl,
        getDailyMetric_inc_metric_ne _ _ _ _ _ (by decide : Metric.tokens_found ≠ .tokens_with_telegram),
        getDailyMetric_inc_same]
    rfl

theorem add_project_fresh_tokens_with_telegram (db : DB) (t : TokenData) (a : String)
    (hkey : t.key = some a) (h : db.projects.any (·.contract_address == a) = false)
    (d : String) (n : Int) (ht : truthy t.telegram = true) :
    getDailyMetric (add_project db t d n).1 .tokens_with_telegram d =
      getDailyMetric db .tokens_with_telegram d + 1 := by
  rw [add_project_fresh_eq db t a hkey h d n]
  dsimp only
  rw [if_pos ht, getDailyMetric_inc_same,
      getDailyMetric_inc_metric_ne _ _ _ _ _ (by decide : Metric.tokens_with_telegram ≠ .tokens_found)]
  rfl

theorem add_project_fresh_other_dates (db : DB) (t : TokenData) (a : String)
    (hkey : t.key = some a) (h : db.projects.any (·.contract_address == a) = false)
    (d : String) (n : Int) (d' : String) (hne : d' ≠ d) (m : Metric) :
    getDailyMetric (add_project db t d n).1 m d' = getDailyMetric db m d' := by
  rw [add_project_fresh_eq db t a hkey h d n]
  dsimp only
  cases ht : truthy t.telegram
  · rw [if_neg (by decide), getDailyMetric_inc_date_ne _ _ _ _ _ hne]
    rfl
  · rw [if_pos rfl, getDailyMetric_inc_date_ne _ _ _ _ _ hne,
        getDailyMetric_inc_date_ne _ _ _ _ _ hne]
    rfl

theorem add_project_fresh_pairwise (db : DB) (t : TokenData) (a : String)
    (hkey : t.key = some a) (h : db.projects.any (·.contract_address == a) = false)
    (d : String) (n : Int)
    (hp : db.daily.Pairwise (fun r s => r.date ≠ s.date)) :
    (add_project db t d n).1.daily.Pairwise (fun r s => r.date ≠ s.date) := by
  rw [add_project_fresh_eq db t a hkey h d n]
  dsimp only
  cases ht : truthy t.telegram
  · rw [if_neg (by decide)]
    exact increment_daily_pairwise _ _ _ _ hp
  · rw [if_pos rfl]
    exact increment_daily_pairwise _ _ _ _ (increment_daily_pairwise _ _ _ _ hp)

theorem add_project_fresh_dailyCount (db : DB) (t : TokenData) (a : String)
    (hkey : t.key = some a) (h : db.projects.any (·.contract_address == a) = false)
    (d : String) (n : Int) :
    dailyCount (add_project db t d n).1 d = max 1 (dailyCount db d) := by
  rw [add_project_fresh_eq db t a hkey h d n]
  dsimp only
  cases ht : truthy t.telegram
  · rw [if_neg (by decide), dailyCount_inc_same]
    rfl
  · rw [if_pos rfl, dailyCount_inc_same, dailyCount_inc_same, ← Nat.max_assoc]
    rfl

theorem any_contract_eq_false {l : List Project} {a : String}
    (h : ∀ p ∈ l, p.contract_address ≠ a) : l.any (·.contract_address == a) = false :=
  List.any_eq_false.mpr fun p hp => by simpa using h p hp

/-! ## C1: `add_project` is idempotent on the contract identifier -/

/-- C1. Inserting the same contract identifier twice never creates two Lead
rows: the second `add_project` call leaves the whole database unchanged
(projects, statuses, outreach tables and metrics included) and returns the
identity produced by the first call; the `tokens_found` metric (and, when
the candidate carries a group link, `tokens_with_telegram`) is incremented
only on the true first insert, and a call whose identifier is already known
changes nothing at all. -/
theorem add_project_idempotent (db : DB) (t : TokenData) (a : String)
    (hkey : t.key = some a) (d1 d2 : String) (n1 n2 : Int) :
    (add_project (add_project db t d1 n1).1 t d2 n2).1 = (add_project db t d1 n1).1 ∧
    (add_project (add_project db t d1 n1).1 t d2 n2).2 = (add_project db t d1 n1).2 ∧
    ((∀ p ∈ db.projects, p.contract_address ≠ a) →
      getDailyMetric (add_project db t d1 n1).1 .tokens_found d1 =
          getDailyMetric db .tokens_found d1 + 1 ∧
        (truthy t.telegram = true →
          getDailyMetric (add_project db t d1 n1).1 .tokens_with_telegram d1 =
            getDailyMetric db .tokens_with_telegram d1 + 1)) ∧
    ((∃ p ∈ db.projects, p.contract_address = a) → (add_project db t d1 n1).1 = db) := by
  cases h : db.projects.any (·.contract_address == a)
  case false =>
    obtain ⟨hproj, -, -, -, -, hret⟩ := add_project_fresh db t a hkey h d1 n1
    have hrow : ((fun p : Project => p.contract_address == a) (newProjectRow db t a n1)) = true := by
      simp [newProjectRow]
    have hany2 : (add_project db t d1 n1).1.projects.any (·.contract_address == a) = true := by
      rw [hproj, List.any_eq_true]
      exact ⟨newProjectRow db t a n1, by simp, hrow⟩
    refine ⟨?_, ?_, ?_, ?_⟩
    · rw [add_project_dup _ t a hkey hany2 d2 n2]
    · rw [add_project_dup _ t a hkey hany2 d2 n2]
      dsimp only
      rw [hproj, hret, List.find?_append, find?_eq_none_of_any_false _ _ h]
      simp [List.find?, newProjectRow]
    · intro _
      exact ⟨add_project_fresh_tokens_found db t a hkey h d1 n1,
             fun ht => add_project_fresh_tokens_with_telegram db t a hkey h d1 n1 ht⟩
    · rintro ⟨p, hp, hpa⟩
      have hb : ((fun x : Project => x.contract_address == a) p) = true := beq_iff_eq.mpr hpa
      have hany : db.projects.any (·.contract_address == a) = true := by
        rw [List.any_eq_true]
        exact ⟨p, hp, hb⟩
      rw [h] at hany
      exact Bool.noConfusion hany
  case true =>
    have heq := add_project_dup db t a hkey h d1 n1
    refine ⟨?_, ?_, ?_, ?_⟩
    · rw [heq]
      dsimp only
      rw [add_project_dup db t a hkey h d2 n2]
    · rw [heq]
      dsimp only
      rw [add_project_dup db t a hkey h d2 n2]
    · intro hfa
      obtain ⟨p, hp, hpb⟩ := List.any_eq_true.mp h
      exact absurd (beq_iff_eq.mp hpb) (hfa p hp)
    · intro _
      rw [heq]

/-- Witness for C1: inserting candidate `tokA` twice into a fresh database;
the second call changes nothing, and the first call's metrics are visible. -/
theorem add_project_idempotent_witness :
    tokA.key = some "CA1" ∧
    ((add_project (add_project DB.empty tokA "2026-10-11" 5).1 tokA "2026-10-12" 9).1 =
        (add_project DB.empty tokA "2026-10-11" 5).1) ∧
    getDailyMetric (add_project DB.empty tokA "2026-10-11" 5).1 .tokens_found "2026-10-11" = 1 :=
  ⟨by decide,
   (add_project_idempotent DB.empty tokA "CA1" (by decide) "2026-10-11" "2026-10-12" 5 9).1,
   by decide⟩

/-! ## C7: daily metrics are date-scoped with one lazily created row -/

/-- C7. Daily metric counters are date-scoped with exactly one row per date,
created lazily on first write: inserting two new Leads dated `d` adds 2 to
`tokens_found` of `d`'s row, changes no counter of any other date, preserves
the one-row-per-date invariant, and when no row for `d` existed yet it
leaves exactly one row carrying `d`. -/
theorem daily_metrics_date_scoped (db : DB) (t1 t2 : TokenData) (a1 a2 : String)
    (d : String) (n1 n2 : Int) (h1 : t1.key = some a1) (h2 : t2.key = some a2)
    (hne : a2 ≠ a1)
    (hf1 : ∀ p ∈ db.projects, p.contract_address ≠ a1)
    (hf2 : ∀ p ∈ db.projects, p.contract_address ≠ a2) :
    getDailyMetric (add_project (add_project db t1 d n1).1 t2 d n2).1 .tokens_found d =
      getDailyMetric db .tokens_found d + 2 ∧
    (∀ d' : String, d' ≠ d → ∀ m : Metric,
      getDailyMetric (add_project (add_project db t1 d n1).1 t2 d n2).1 m d' =
        getDailyMetric db m d') ∧
    (db.daily.Pairwise (fun r s => r.date ≠ s.date) →
      (add_project (add_project db t1 d n1).1 t2 d n2).1.daily.Pairwise
        (fun r s => r.date ≠ s.date)) ∧
    ((∀ r ∈ db.daily, r.date ≠ d) →
      dailyCount (add_project (add_project db t1 d n1).1 t2 d n2).1 d = 1) := by
  have hany1 : db.projects.any (·.contract_address == a1) = false := any_contract_eq_false hf1
  obtain ⟨hproj, -, -, -, -, -⟩ := add_project_fresh db t1 a1 h1 hany1 d n1
  have hany2 : (add_project db t1 d n1).1.projects.any (·.contract_address == a2) = false := by
    rw [hproj]
    refine any_contract_eq_false ?_
    intro p hp
    rcases List.mem_append.mp hp with hmem | hmem
    · exact hf2 p hmem
    · rw [List.mem_singleton] at hmem
      subst hmem
      show a1 ≠ a2
      exact fun hc => hne hc.symm
  refine ⟨?_, ?_, ?_, ?_⟩
  · rw [add_project_fresh_tokens_found _ t2 a2 h2 hany2 d n2,
        add_project_fresh_tokens_found db t1 a1 h1 hany1 d n1]
  · intro d' hd m
    rw [add_project_fresh_other_dates _ t2 a2 h2 hany2 d n2 d' hd m,
        add_project_fresh_other_dates db t1 a1 h1 hany1 d n1 d' hd m]
  · intro hp
    exact add_project_fresh_pairwise _ t2 a2 h2 hany2 d n2
      (add_project_fresh_pairwise db t1 a1 h1 hany1 d n1 hp)
  · intro hnone
    rw [add_project_fresh_dailyCount _ t2 a2 h2 hany2 d n2,
        add_project_fresh_dailyCount db t1 a1 h1 hany1 d n1]
    have h0 : dailyCount db d = 0 :=
      List.countP_eq_zero.mpr (fun r hr => by simpa using hnone r hr)
    rw [h0]
    decide

/-- Witness for C7: two fresh candidates inserted on 2026-10-12 into an
empty database give `tokens_found = 2` on that date and `0` on the adjacent
dates. -/
theorem daily_metrics_date_scoped_witness :
    tokA.key = some "CA1" ∧ tokB.key = some "CA2" ∧
    getDailyMetric (add_project (add_project DB.empty tokA "2026-10-12" 1).1
        tokB "2026-10-12" 2).1 .tokens_found "2026-10-12" =
      getDailyMetric DB.empty .tokens_found "2026-10-12" + 2 ∧
    getDailyMetric (add_project (add_project DB.empty tokA "2026-10-12" 1).1
        tokB "2026-10-12" 2).1 .tokens_found "2026-10-11" = 0 ∧
    getDailyMetric (add_project (add_project DB.empty tokA "2026-10-12" 1).1
        tokB "2026-10-12" 2).1 .tokens_found "2026-10-13" = 0 ∧
    dailyCount (add_project (add_project DB.empty tokA "2026-10-12" 1).1
        tokB "2026-10-12" 2).1 "2026-10-12" = 1 :=
  ⟨by decide, by decide,
   (daily_metrics_date_scoped DB.empty tokA tokB "CA1" "CA2" "2026-10-12" 1 2
      (by decide) (by decide) (by decide) (by decide) (by decide)).1,
   by decide, by decide,
   (daily_metrics_date_scoped DB.empty tokA tokB "CA1" "CA2" "2026-10-12" 1 2
      (by decide) (by decide) (by decide) (by decide) (by decide)).2.2.2 (by decide)⟩

/-! ## C5: uncontacted admins have no prior successful message -/

/-- C5. `listUncontactedAdmins(leadId)` never returns an Admin for which a
successful `OutreachMessage` row exists for that Lead: every admin in the
result of `get_uncontacted_admins db pid` has no message row that references
it and has `send_success = true` (in particular none for that Lead). -/
theorem uncontacted_admins_no_successful_message (db : DB) (pid : Nat) (ad : AdminRow)
    (had : ad ∈ get_uncontacted_admins db pid) :
    ad.project_id = pid ∧
      ¬ ∃ m ∈ db.messages, m.admin_id = some ad.id ∧ m.send_success = true := by
  unfold get_uncontacted_admins at had
  rw [List.mem_filter] at had
  obtain ⟨-, hcond⟩ := had
  rw [Bool.and_eq_true, Bool.not_eq_true'] at hcond
  obtain ⟨hpid, hmsg⟩ := hcond
  refine ⟨by simpa using hpid, ?_⟩
  rintro ⟨m, hm, hadm, hsucc⟩
  have : db.messages.any (fun m => m.admin_id == some ad.id && m.send_success) = true := by
    rw [List.any_eq_true]
    exact ⟨m, hm, by simp [hadm, hsucc]⟩
  rw [this] at hmsg
  exact Bool.noConfusion hmsg

/-- Witness for C5 at a concrete database: one admin, one failed message to
it; the admin is returned and indeed has no successful message. -/
theorem uncontacted_admins_no_successful_message_witness :
    (⟨1, 7, 3, "alice", none, none, true⟩ : AdminRow) ∈
        get_uncontacted_admins
          { DB.empty with
              admins := [⟨1, 7, 3, "alice", none, none, true⟩],
              messages := [⟨1, 7, some 1, "hi", some "default", 0, false, some "Privacy restricted",
                            false, none, none⟩] } 7 ∧
      ((⟨1, 7, 3, "alice", none, none, true⟩ : AdminRow).project_id = 7 ∧
        ¬ ∃ m ∈ ({ DB.empty with
              admins := [⟨1, 7, 3, "alice", none, none, true⟩],
              messages := [⟨1, 7, some 1, "hi", some "default", 0, false, some "Privacy restricted",
                            false, none, none⟩] } : DB).messages,
            m.admin_id = some (⟨1, 7, 3, "alice", none, none, true⟩ : AdminRow).id ∧
              m.send_success = true) :=
  ⟨by decide, uncontacted_admins_no_successful_message _ 7 _ (by decide)⟩

/-! ## C2: the sliding one-hour-window rate limiter -/

theorem foldl_min_eq (first : Int) : ∀ (rest : List Int), (∀ t ∈ rest, first ≤ t) →
    rest.foldl min first = first
  | [], _ => rfl
  | t :: ts, h => by
    rw [List.foldl_cons, min_eq_left (h t (List.mem_cons_self t ts))]
    exact foldl_min_eq first ts (fun s hs => h s (List.mem_cons_of_mem t hs))

theorem slidingCheck_denied (first : Int) (rest : List Int) (N : Nat) (hN : 1 ≤ N)
    (hlen : (first :: rest).length = N)
    (hwin : ∀ t ∈ rest, first ≤ t ∧ t < first + 3600)
    (now : Int) (hnow : now < first + 3600) :
    slidingCheck (first :: rest) N now = ⟨first :: rest, false, first + 3600 - now⟩ := by
  simp only [slidingCheck, pruneWindow]
  have hfilter : (first :: rest).filter (fun t => decide (now - 3600 < t)) = first :: rest := by
    rw [List.filter_eq_self]
    intro t ht
    rcases List.mem_cons.mp ht with h | h
    · subst h; exact decide_eq_true (by omega)
    · exact decide_eq_true (by have := (hwin t h).1; omega)
  rw [hfilter, if_pos (le_of_eq hlen.symm)]
  have hmin : listMin (first :: rest) = first :=
    foldl_min_eq first rest (fun t ht => (hwin t ht).1)
  rw [hmin, max_eq_right (by omega : (0 : Int) ≤ first + 3600 - now)]

theorem slidingCheck_allowed_after (first : Int) (rest : List Int) (N : Nat)
    (hlen : (first :: rest).length = N)
    (now' : Int) (h3 : first + 3600 ≤ now') :
    (slidingCheck (first :: rest) N now').allowed = true := by
  simp only [slidingCheck, pruneWindow]
  have hhead : (decide (now' - 3600 < first)) = false := by
    rw [decide_eq_false_iff_not]
    omega
  have hfl := List.length_filter_le (fun t => decide (now' - 3600 < t)) rest
  have hlen' : rest.length + 1 = N := by simpa using hlen
  rw [List.filter_cons, hhead, if_neg Bool.false_ne_true]
  rw [if_neg (by omega :
    ¬ ((List.filter (fun t => decide (now' - 3600 < t)) rest).length ≥ N))]

/-- C2. For an action class with ceiling `N ≥ 1`, once `N` actions are
recorded within 60 minutes of the first, the next admission check is denied
and its wait equals exactly the time remaining until the first (oldest)
retained action leaves the 60-minute window; at or after that moment the
first entry is pruned and the check is allowed.  This holds independently
for the join class (`_can_join`) and the DM class (`_can_dm`). -/
theorem rate_limiter_sliding_window (a : Automator) (first : Int) (rest : List Int)
    (N : Nat) (hN : 1 ≤ N) (hlen : (first :: rest).length = N)
    (hwin : ∀ t ∈ rest, first ≤ t ∧ t < first + 3600)
    (now now' : Int) (hnow : now < first + 3600) (hnow' : first + 3600 ≤ now') :
    ((can_join { a with join_times := first :: rest, max_joins_per_hour := N } now).2.1 = false ∧
     (can_join { a with join_times := first :: rest, max_joins_per_hour := N } now).2.2 =
       first + 3600 - now ∧
     (can_join { a with join_times := first :: rest, max_joins_per_hour := N } now').2.1 = true) ∧
    ((can_dm { a with dm_times := first :: rest, max_dms_per_hour := N } now).2.1 = false ∧
     (can_dm { a with dm_times := first :: rest, max_dms_per_hour := N } now).2.2 =
       first + 3600 - now ∧
     (can_dm { a with dm_times := first :: rest, max_dms_per_hour := N } now').2.1 = true) := by
  have hd := slidingCheck_denied first rest N hN hlen hwin now hnow
  have ha := slidingCheck_allowed_after first rest N hlen now' hnow'
  constructor
  · refine ⟨?_, ?_, ?_⟩ <;> simp [can_join, hd, ha]
  · refine ⟨?_, ?_, ?_⟩ <;> simp [can_dm, hd, ha]

/-- Witness for C2: ceiling 2, actions at 0s and 100s; the check at 1800s is
denied with a 1800s wait, and the check at 3600s (60 minutes after the
first action) is allowed; same for the DM class. -/
theorem rate_limiter_sliding_window_witness :
    ((can_join { autoW with join_times := [0, 100], max_joins_per_hour := 2 } 1800).2.1 = false ∧
     (can_join { autoW with join_times := [0, 100], max_joins_per_hour := 2 } 1800).2.2 = 1800 ∧
     (can_join { autoW with join_times := [0, 100], max_joins_per_hour := 2 } 3600).2.1 = true) ∧
    ((can_dm { autoW with dm_times := [0, 100], max_dms_per_hour := 2 } 1800).2.1 = false ∧
     (can_dm { autoW with dm_times := [0, 100], max_dms_per_hour := 2 } 1800).2.2 = 1800 ∧
     (can_dm { autoW with dm_times := [0, 100], max_dms_per_hour := 2 } 3600).2.1 = true) :=
  rate_limiter_sliding_window autoW 0 [100] 2 (by decide) (by decide)
    (by decide) 1800 3600 (by decide) (by decide)

/-! ## C10: frame effects of `join_group` on the already-member path -/

theorem slidingCheck_times (times : List Int) (limit : Nat) (now : Int) :
    (slidingCheck times limit now).times = pruneWindow times now := by
  simp only [slidingCheck]
  split <;> rfl

/-- C10 counterexample: with the join budget exhausted, a `join_group` call
on a group the client is already a member of is DENIED, not a success — the
rate-limit check precedes the membership probe; and even an admitted
already-member call does not leave the window list untouched: an expired
entry is pruned by the check. -/
theorem join_group_already_member_counterexample :
    ((join_group { autoW with join_times := [0], max_joins_per_hour := 1 } envMember
        "https://t.me/alphagroup" 10).ok = false ∧
     (join_group { autoW with join_times := [0], max_joins_per_hour := 1 } envMember
        "https://t.me/alphagroup" 10).error = some "Rate limited, wait 3590s") ∧
    ((join_group { autoW with join_times := [-4000] } envMember
        "https://t.me/alphagroup" 10).ok = true ∧
     (join_group { autoW with join_times := [-4000] } envMember
        "https://t.me/alphagroup" 10).auto.join_times = []) := by decide

/-- C10 (amended). When the join-class limiter admits the call and the
entity is a group: an already-member "join" returns success with no error,
appends no timestamp (the window is only pruned of expired entries), leaves
`groups_joined` untouched and performs no throttle sleep; a genuinely new
successful join appends the current timestamp, increments `groups_joined`,
and sleeps `join_delay`. -/
theorem join_group_member_frame (a : Automator) (env : JoinEnv) (url : String)
    (now : Int) (u : String) (hext : extract_username url = some u)
    (hallow : (slidingCheck a.join_times a.max_joins_per_hour now).allowed = true)
    (hent : env.getEntity = Except.ok Entity.channelOrChat) :
    (env.isMember = true →
      join_group a env url now =
        ⟨{ a with join_times := pruneWindow a.join_times now }, [], true, none, none⟩) ∧
    (env.isMember = false → env.joinRequest = Except.ok () →
      join_group a env url now =
        ⟨{ a with join_times := pruneWindow a.join_times now ++ [now],
                  stats_groups_joined := a.stats_groups_joined + 1 },
          [a.join_delay], true, none, none⟩) := by
  constructor
  · intro hm
    simp [join_group, hext, can_join, hallow, hent, hm, slidingCheck_times]
  · intro hm hjr
    simp [join_group, hext, can_join, hallow, hent, hm, hjr, slidingCheck_times]

/-- Witness for C10 (amended): a member "join" at 10s with one live window
entry keeps the window and counters; a new join appends and increments. -/
theorem join_group_member_frame_witness :
    (join_group { autoW with join_times := [5] } envMember "https://t.me/alphagroup" 10 =
      ⟨{ autoW with join_times := pruneWindow [5] 10 }, [], true, none, none⟩) ∧
    (join_group { autoW with join_times := [5] } envNewJoin "https://t.me/alphagroup" 10 =
      ⟨{ autoW with join_times := pruneWindow [5] 10 ++ [10], stats_groups_joined := 1 },
        [30], true, none, none⟩) :=
  ⟨(join_group_member_frame { autoW with join_times := [5] } envMember
      "https://t.me/alphagroup" 10 "alphagroup" (by decide) (by decide) rfl).1 rfl,
   (join_group_member_frame { autoW with join_times := [5] } envNewJoin
      "https://t.me/alphagroup" 10 "alphagroup" (by decide) (by decide) rfl).2 rfl rfl⟩

/-! ## C8: template placeholder substitution in `send_dm` -/

/-- C8 counterexample: the code substitutes `{project_name}` and
`{token_symbol}`, not the spec's `{name}` / `{symbol}` placeholders.  With a
`{name}`/`{symbol}` template, a lead named "Alpha" with symbol "ALP", the
text handed to the client is the template verbatim — not the text the claim
requires. -/
theorem template_placeholder_counterexample :
    (send_dm autoW dmOk "alice" "Hey {name}! Check out {symbol}." (some "Alpha") (some "ALP")
        0).sent = some "Hey {name}! Check out {symbol}." ∧
    pyReplace (pyReplace "Hey {name}! Check out {symbol}." "{name}" "Alpha") "{symbol}" "ALP" =
      "Hey Alpha! Check out ALP." ∧
    some "Hey {name}! Check out {symbol}." ≠ some "Hey Alpha! Check out ALP." := by decide

/-- C8 (amended). On a successful send, the text handed to the client is the
template with `{admin_name_greeting}` (when present) replaced by the empty
string, every `{project_name}` replaced by the lead's non-empty name, and
every `{token_symbol}` replaced by its non-empty symbol, in that order; the
DM window gains the timestamp, `dms_sent` increments, and the `dm_delay`
throttle sleep is performed. -/
theorem send_dm_substitutes_template (a : Automator) (env : DmEnv)
    (username template name symbol : String) (hname : name ≠ "") (hsymbol : symbol ≠ "")
    (now : Int)
    (hallow : (slidingCheck a.dm_times a.max_dms_per_hour now).allowed = true)
    (hout : env.outcome = Except.ok ()) :
    send_dm a env username template (some name) (some symbol) now =
      ⟨{ a with dm_times := pruneWindow a.dm_times now ++ [now],
                stats_dms_sent := a.stats_dms_sent + 1 },
        [a.dm_delay], true, none,
        some (pyReplace
          (pyReplace
            (if strContains template "{admin_name_greeting}" then
              pyReplace template "{admin_name_greeting}" "" else template)
            "{project_name}" name)
          "{token_symbol}" symbol)⟩ := by
  simp [send_dm, can_dm, hallow, hout, personalize, hname, hsymbol, slidingCheck_times]

/-- Witness for C8 (amended): a concrete successful send substitutes the
code's placeholders. -/
theorem send_dm_substitutes_template_witness :
    send_dm autoW dmOk "alice" "Hi! {project_name} ({token_symbol}) looks great."
        (some "Alpha") (some "ALP") 0 =
      ⟨{ autoW with dm_times := pruneWindow [] 0 ++ [0], stats_dms_sent := 1 },
        [60], true, none,
        some (pyReplace
          (pyReplace
            (if strContains "Hi! {project_name} ({token_symbol}) looks great."
                "{admin_name_greeting}" then
              pyReplace "Hi! {project_name} ({token_symbol}) looks great."
                "{admin_name_greeting}" "" else
              "Hi! {project_name} ({token_symbol}) looks great.")
            "{project_name}" "Alpha")
          "{token_symbol}" "ALP")⟩ :=
  send_dm_substitutes_template autoW dmOk "alice"
    "Hi! {project_name} ({token_symbol}) looks great." "Alpha" "ALP"
    (by decide) (by decide) 0 (by decide) rfl

/-! ## Characterisation and frame lemmas for the store operations -/

theorem update_status_groups (db : DB) (pid : Nat) (s : String) (n : Int) :
    (update_project_status db pid s n).groups = db.groups := rfl

theorem update_status_admins (db : DB) (pid : Nat) (s : String) (n : Int) :
    (update_project_status db pid s n).admins = db.admins := rfl

theorem update_status_messages (db : DB) (pid : Nat) (s : String) (n : Int) :
    (update_project_status db pid s n).messages = db.messages := rfl

theorem update_status_daily (db : DB) (pid : Nat) (s : String) (n : Int) :
    (update_project_status db pid s n).daily = db.daily := rfl

theorem update_status_next_message_id (db : DB) (pid : Nat) (s : String) (n : Int) :
    (update_project_status db pid s n).next_message_id = db.next_message_id := rfl

theorem update_status_getDailyMetric (db : DB) (pid : Nat) (s : String) (n : Int)
    (m : Metric) (d : String) :
    getDailyMetric (update_project_status db pid s n) m d = getDailyMetric db m d := rfl

theorem add_telegram_group_dup_eq (db : DB) (pid : Nat) (url : String) (joined : Bool)
    (error : Option String) (today : String) (now : Int)
    (h : db.groups.any (fun g => g.project_id == pid && g.telegram_url == url) = true) :
    add_telegram_group db pid url joined error today now = (db, none) := by
  simp only [add_telegram_group]
  rw [if_pos h]

theorem add_telegram_group_nodup_eq (db : DB) (pid : Nat) (url : String) (joined : Bool)
    (error : Option String) (today : String) (now : Int)
    (h : db.groups.any (fun g => g.project_id == pid && g.telegram_url == url) = false) :
    add_telegram_group db pid url joined error today now =
      (if joined then
        update_project_status
          (increment_daily_metric
            { db with groups := db.groups ++ [⟨db.next_group_id, pid, url, now, joined, error⟩],
                      next_group_id := db.next_group_id + 1 }
            .groups_joined 1 today)
          pid "joined" now
      else
        increment_daily_metric
          { db with groups := db.groups ++ [⟨db.next_group_id, pid, url, now, joined, error⟩],
                    next_group_id := db.next_group_id + 1 }
          .join_failures 1 today,
      some db.next_group_id) := by
  simp only [add_telegram_group]
  rw [if_neg (by simp [h])]
  cases joined <;> rfl

theorem add_telegram_group_messages (db : DB) (pid : Nat) (url : String) (joined : Bool)
    (error : Option String) (today : String) (now : Int) :
    (add_telegram_group db pid url joined error today now).1.messages = db.messages := by
  simp only [add_telegram_group]
  split
  · rfl
  · split <;> simp [update_status_messages, increment_messages]

theorem add_telegram_group_next_message_id (db : DB) (pid : Nat) (url : String)
    (joined : Bool) (error : Option String) (today : String) (now : Int) :
    (add_telegram_group db pid url joined error today now).1.next_message_id =
      db.next_message_id := by
  simp only [add_telegram_group]
  split
  · rfl
  · split <;> simp [update_status_next_message_id, increment_next_message_id]

theorem add_telegram_group_getDailyMetric (db : DB) (pid : Nat) (url : String)
    (joined : Bool) (error : Option String) (today : String) (now : Int)
    (m : Metric) (hm1 : m ≠ .groups_joined) (hm2 : m ≠ .join_failures) (d : String) :
    getDailyMetric (add_telegram_group db pid url joined error today now).1 m d =
      getDailyMetric db m d := by
  simp only [add_telegram_group]
  split
  · rfl
  · split
    · rw [update_status_getDailyMetric, getDailyMetric_inc_metric_ne _ _ _ _ _ hm1]
      rfl
    · rw [getDailyMetric_inc_metric_ne _ _ _ _ _ hm2]
      rfl

theorem add_admin_messages (db : DB) (pid gid : Nat) (un : String) (uid fn : Option String)
    (own : Bool) (today : String) :
    (add_admin db pid gid un uid fn own today).1.messages = db.messages := by
  simp only [add_admin]
  split
  · rfl
  · simp [increment_messages]

theorem add_admin_groups (db : DB) (pid gid : Nat) (un : String) (uid fn : Option String)
    (own : Bool) (today : String) :
    (add_admin db pid gid un uid fn own today).1.groups = db.groups := by
  simp only [add_admin]
  split
  · rfl
  · simp [increment_groups]

theorem add_admin_projects (db : DB) (pid gid : Nat) (un : String) (uid fn : Option String)
    (own : Bool) (today : String) :
    (add_admin db pid gid un uid fn own today).1.projects = db.projects := by
  simp only [add_admin]
  split
  · rfl
  · simp [increment_projects]

theorem add_admin_next_message_id (db : DB) (pid gid : Nat) (un : String)
    (uid fn : Option String) (own : Bool) (today : String) :
    (add_admin db pid gid un uid fn own today).1.next_message_id = db.next_message_id := by
  simp only [add_admin]
  split
  · rfl
  · simp [increment_next_message_id]

theorem add_admin_next_project_id (db : DB) (pid gid : Nat) (un : String)
    (uid fn : Option String) (own : Bool) (today : String) :
    (add_admin db pid gid un uid fn own today).1.next_project_id = db.next_project_id := by
  simp only [add_admin]
  split
  · rfl
  · simp [increment_next_project_id]

theorem add_admin_getDailyMetric (db : DB) (pid gid : Nat) (un : String)
    (uid fn : Option String) (own : Bool) (today : String)
    (m : Metric) (hm : m ≠ .admins_found) (d : String) :
    getDailyMetric (add_admin db pid gid un uid fn own today).1 m d =
      getDailyMetric db m d := by
  simp only [add_admin]
  split
  · rfl
  · rw [getDailyMetric_inc_metric_ne _ _ _ _ _ hm]
    rfl

theorem recordAdmins_messages (pid gid : Nat) (today : String) :
    ∀ (admins : List AdminInfo) (db : DB),
      (recordAdmins db pid gid admins today).messages = db.messages
  | [], _ => rfl
  | ad :: ads, db => by
    have h := recordAdmins_messages pid gid today ads
      (add_admin db pid gid ad.username (some (toString ad.user_id)) (some ad.first_name)
        ad.is_owner today).1
    calc (recordAdmins db pid gid (ad :: ads) today).messages
        = (recordAdmins (add_admin db pid gid ad.username (some (toString ad.user_id))
            (some ad.first_name) ad.is_owner today).1 pid gid ads today).messages := rfl
      _ = _ := by rw [h, add_admin_messages]

theorem recordAdmins_groups (pid gid : Nat) (today : String) :
    ∀ (admins : List AdminInfo) (db : DB),
      (recordAdmins db pid gid admins today).groups = db.groups
  | [], _ => rfl
  | ad :: ads, db => by
    have h := recordAdmins_groups pid gid today ads
      (add_admin db pid gid ad.username (some (toString ad.user_id)) (some ad.first_name)
        ad.is_owner today).1
    calc (recordAdmins db pid gid (ad :: ads) today).groups
        = (recordAdmins (add_admin db pid gid ad.username (some (toString ad.user_id))
            (some ad.first_name) ad.is_owner today).1 pid gid ads today).groups := rfl
      _ = _ := by rw [h, add_admin_groups]

theorem recordAdmins_projects (pid gid : Nat) (today : String) :
    ∀ (admins : List AdminInfo) (db : DB),
      (recordAdmins db pid gid admins today).projects = db.projects
  | [], _ => rfl
  | ad :: ads, db => by
    have h := recordAdmins_projects pid gid today ads
      (add_admin db pid gid ad.username (some (toString ad.user_id)) (some ad.first_name)
        ad.is_owner today).1
    calc (recordAdmins db pid gid (ad :: ads) today).projects
        = (recordAdmins (add_admin db pid gid ad.username (some (toString ad.user_id))
            (some ad.first_name) ad.is_owner today).1 pid gid ads today).projects := rfl
      _ = _ := by rw [h, add_admin_projects]

theorem recordAdmins_next_message_id (pid gid : Nat) (today : String) :
    ∀ (admins : List AdminInfo) (db : DB),
      (recordAdmins db pid gid admins today).next_message_id = db.next_message_id
  | [], _ => rfl
  | ad :: ads, db => by
    have h := recordAdmins_next_message_id pid gid today ads
      (add_admin db pid gid ad.username (some (toString ad.user_id)) (some ad.first_name)
        ad.is_owner today).1
    calc (recordAdmins db pid gid (ad :: ads) today).next_message_id
        = (recordAdmins (add_admin db pid gid ad.username (some (toString ad.user_id))
            (some ad.first_name) ad.is_owner today).1 pid gid ads today).next_message_id := rfl
      _ = _ := by rw [h, add_admin_next_message_id]

theorem recordAdmins_next_project_id (pid gid : Nat) (today : String) :
    ∀ (admins : List AdminInfo) (db : DB),
      (recordAdmins db pid gid admins today).next_project_id = db.next_project_id
  | [], _ => rfl
  | ad :: ads, db => by
    have h := recordAdmins_next_project_id pid gid today ads
      (add_admin db pid gid ad.username (some (toString ad.user_id)) (some ad.first_name)
        ad.is_owner today).1
    calc (recordAdmins db pid gid (ad :: ads) today).next_project_id
        = (recordAdmins (add_admin db pid gid ad.username (some (toString ad.user_id))
            (some ad.first_name) ad.is_owner today).1 pid gid ads today).next_project_id := rfl
      _ = _ := by rw [h, add_admin_next_project_id]

theorem recordAdmins_getDailyMetric (pid gid : Nat) (today : String)
    (m : Metric) (hm : m ≠ .admins_found) (d : String) :
    ∀ (admins : List AdminInfo) (db : DB),
      getDailyMetric (recordAdmins db pid gid admins today) m d = getDailyMetric db m d
  | [], _ => rfl
  | ad :: ads, db => by
    have h := recordAdmins_getDailyMetric pid gid today m hm d ads
      (add_admin db pid gid ad.username (some (toString ad.user_id)) (some ad.first_name)
        ad.is_owner today).1
    calc getDailyMetric (recordAdmins db pid gid (ad :: ads) today) m d
        = getDailyMetric (recordAdmins (add_admin db pid gid ad.username
            (some (toString ad.user_id)) (some ad.first_name) ad.is_owner today).1
            pid gid ads today) m d := rfl
      _ = _ := by rw [h, add_admin_getDailyMetric _ _ _ _ _ _ _ _ _ hm]

theorem add_message_eq (db : DB) (pid : Nat) (admin_id : Option Nat) (text : String)
    (template : Option String) (success : Bool) (error : Option String)
    (today : String) (now : Int) :
    add_message db pid admin_id text template success error today now =
      (if success then
        update_project_status
          (increment_daily_metric
            { db with
              messages := db.messages ++
                [⟨db.next_message_id, pid, admin_id, text, template, now, success, error,
                  false, none, none⟩],
              next_message_id := db.next_message_id + 1 }
            .dms_sent 1 today)
          pid "contacted" now
      else
        increment_daily_metric
          { db with
            messages := db.messages ++
              [⟨db.next_message_id, pid, admin_id, text, template, now, success, error,
                false, none, none⟩],
            next_message_id := db.next_message_id + 1 }
          .dms_failed 1 today,
      db.next_message_id) := by
  simp only [add_message]
  cases success <;> rfl

/-! ## C4: rate-limit denials and their recording in the store -/

theorem join_group_denied_eq (a : Automator) (env : JoinEnv) (url : String) (now : Int)
    (u : String) (hext : extract_username url = some u)
    (hdeny : (slidingCheck a.join_times a.max_joins_per_hour now).allowed = false) :
    join_group a env url now =
      ⟨{ a with join_times := pruneWindow a.join_times now }, [], false,
        some ("Rate limited, wait " ++
          toString (slidingCheck a.join_times a.max_joins_per_hour now).wait ++ "s"), none⟩ := by
  simp [join_group, hext, can_join, hdeny, slidingCheck_times]

theorem send_dm_denied_eq (a : Automator) (env : DmEnv) (username message : String)
    (pn ts : Option String) (now : Int)
    (hdeny : (slidingCheck a.dm_times a.max_dms_per_hour now).allowed = false) :
    send_dm a env username message pn ts now =
      ⟨{ a with dm_times := pruneWindow a.dm_times now }, [], false,
        some ("Rate limited, wait " ++
          toString (slidingCheck a.dm_times a.max_dms_per_hour now).wait ++ "s"), none⟩ := by
  simp [send_dm, can_dm, hdeny, slidingCheck_times]

theorem getDailyMetric_msgupd (db : DB) (ms : List MessageRow) (n : Nat)
    (m : Metric) (d : String) :
    getDailyMetric { db with messages := ms, next_message_id := n } m d =
      getDailyMetric db m d := rfl

/-- C4 counterexample: with the join budget exhausted (ceiling 1, one action
in the window), processing a lead with a valid group link is rate-limit
denied — and a failed GroupMembership row IS created and `join_failures` IS
incremented, contradicting the claim that no failure is recorded for a
denial. -/
theorem rate_limited_denial_recorded_counterexample :
    (process_project { autoW with join_times := [0], max_joins_per_hour := 1 } dbOneLead
        projAlpha "hi" envProcNoAdmins "2026-10-12" 10).res.error =
      some "Join failed: Rate limited, wait 3590s" ∧
    ((process_project { autoW with join_times := [0], max_joins_per_hour := 1 } dbOneLead
        projAlpha "hi" envProcNoAdmins "2026-10-12" 10).db.groups.countP
        (fun g => !g.join_success)) = 1 ∧
    getDailyMetric (process_project { autoW with join_times := [0], max_joins_per_hour := 1 }
        dbOneLead projAlpha "hi" envProcNoAdmins "2026-10-12" 10).db .join_failures
      "2026-10-12" = 1 := by decide

/-- C4 (amended). A rate-limit denial makes `process_project` return
immediately — no external call, no sleep, no rate budget consumed, the wait
time carried in the error string — but the denial IS recorded in the store
as a failure: a join-class denial creates a `join_success = false`
GroupMembership row and increments `join_failures`; a message-class denial
creates a `send_success = false` OutreachMessage row and increments
`dms_failed`. -/
theorem process_rate_limited_records_failure (a : Automator) (db : DB)
    (proj : ProjectDict) (template : String) (env : ProcEnv) (today : String) (now : Int)
    (u : String)
    (htg : truthy (pyOr proj.telegram_url proj.telegram) = true)
    (hext : extract_username ((pyOr proj.telegram_url proj.telegram).getD "") = some u) :
    ((slidingCheck a.join_times a.max_joins_per_hour now).allowed = false →
     db.groups.any (fun g => g.project_id == proj.id &&
       g.telegram_url == (pyOr proj.telegram_url proj.telegram).getD "") = false →
      (process_project a db proj template env today now).res.joined = false ∧
      (process_project a db proj template env today now).res.error =
        some ("Join failed: " ++ ("Rate limited, wait " ++
          toString (slidingCheck a.join_times a.max_joins_per_hour now).wait ++ "s")) ∧
      (process_project a db proj template env today now).auto =
        { a with join_times := pruneWindow a.join_times now } ∧
      (process_project a db proj template env today now).sleeps = [] ∧
      (process_project a db proj template env today now).db.groups =
        db.groups ++ [⟨db.next_group_id, proj.id,
          (pyOr proj.telegram_url proj.telegram).getD "", now, false,
          some ("Rate limited, wait " ++
            toString (slidingCheck a.join_times a.max_joins_per_hour now).wait ++ "s")⟩] ∧
      getDailyMetric (process_project a db proj template env today now).db
          .join_failures today = getDailyMetric db .join_failures today + 1 ∧
      (process_project a db proj template env today now).db.messages = db.messages ∧
      (process_project a db proj template env today now).db.projects = db.projects) ∧
    ((slidingCheck a.join_times a.max_joins_per_hour now).allowed = true →
     env.join.getEntity = Except.ok Entity.channelOrChat →
     env.join.isMember = true →
     env.admins.isEmpty = false →
     (slidingCheck a.dm_times a.max_dms_per_hour now).allowed = false →
      (process_project a db proj template env today now).res.joined = true ∧
      (process_project a db proj template env today now).res.dm_sent = false ∧
      (process_project a db proj template env today now).res.error =
        some ("DM failed: " ++ ("Rate limited, wait " ++
          toString (slidingCheck a.dm_times a.max_dms_per_hour now).wait ++ "s")) ∧
      (∃ aid, (process_project a db proj template env today now).db.messages =
        db.messages ++ [⟨db.next_message_id, proj.id, aid, template, some "default", now,
          false,
          some ("Rate limited, wait " ++
            toString (slidingCheck a.dm_times a.max_dms_per_hour now).wait ++ "s"),
          false, none, none⟩]) ∧
      getDailyMetric (process_project a db proj template env today now).db
          .dms_failed today = getDailyMetric db .dms_failed today + 1) := by
  constructor
  · intro hdeny hnodup
    have hjr := join_group_denied_eq a env.join
      ((pyOr proj.telegram_url proj.telegram).getD "") now u hext hdeny
    have hgr := add_telegram_group_nodup_eq db proj.id
      ((pyOr proj.telegram_url proj.telegram).getD "") false
      (some ("Rate limited, wait " ++
        toString (slidingCheck a.join_times a.max_joins_per_hour now).wait ++ "s"))
      today now hnodup
    refine ⟨?_, ?_, ?_, ?_, ?_, ?_, ?_, ?_⟩
    · simp [process_project, htg, hjr, hgr, increment_groups, increment_messages,
        increment_projects, getDailyMetric_inc_same, pyStr]
    · simp [process_project, htg, hjr, hgr, increment_groups, increment_messages,
        increment_projects, getDailyMetric_inc_same, pyStr]
    · simp [process_project, htg, hjr, hgr, increment_groups, increment_messages,
        increment_projects, getDailyMetric_inc_same, pyStr]
    · simp [process_project, htg, hjr, hgr, increment_groups, increment_messages,
        increment_projects, getDailyMetric_inc_same, pyStr]
    · simp [process_project, htg, hjr, hgr, increment_groups, increment_messages,
        increment_projects, getDailyMetric_inc_same, pyStr]
    · simp [process_project, htg, hjr, hgr, increment_groups, increment_messages,
        increment_projects, getDailyMetric_inc_same, pyStr]
      rfl
    · simp [process_project, htg, hjr, hgr, increment_groups, increment_messages,
        increment_projects, getDailyMetric_inc_same, pyStr]
    · simp [process_project, htg, hjr, hgr, increment_groups, increment_messages,
        increment_projects, getDailyMetric_inc_same, pyStr]
  · intro hallow hent hmem hadm hdmdeny
    have hjr := (join_group_member_frame a env.join
      ((pyOr proj.telegram_url proj.telegram).getD "") now u hext hallow hent).1 hmem
    refine ⟨?_, ?_, ?_, ?_, ?_⟩
    · simp [process_project, htg, hjr, hadm, send_dm_denied_eq, hdmdeny, pyStr]
    · simp [process_project, htg, hjr, hadm, send_dm_denied_eq, hdmdeny, pyStr]
    · simp [process_project, htg, hjr, hadm, send_dm_denied_eq, hdmdeny, pyStr]
    · simp only [process_project, htg, Bool.not_true, Bool.false_eq_true, if_false, hjr,
        hadm, Bool.not_false, if_true]
      simp [send_dm_denied_eq, hdmdeny, add_message_eq, increment_messages,
        getDailyMetric_msgupd, apply_ite, ite_self, pyStr,
        add_telegram_group_messages, recordAdmins_messages,
        add_telegram_group_next_message_id, recordAdmins_next_message_id]
    · simp only [process_project, htg, Bool.not_true, Bool.false_eq_true, if_false, hjr,
        hadm, Bool.not_false, if_true]
      cases htn : truthyNat (add_telegram_group db proj.id
          ((pyOr proj.telegram_url proj.telegram).getD "") true none today now).2
      · simp [htn, send_dm_denied_eq, hdmdeny, add_message_eq, getDailyMetric_inc_same,
          getDailyMetric_msgupd,
          add_telegram_group_getDailyMetric _ _ _ _ _ _ _ Metric.dms_failed (by decide)
            (by decide) today]
      · simp [htn, send_dm_denied_eq, hdmdeny, add_message_eq, getDailyMetric_inc_same,
          getDailyMetric_msgupd,
          recordAdmins_getDailyMetric _ _ _ Metric.dms_failed (by decide) today,
          add_telegram_group_getDailyMetric _ _ _ _ _ _ _ Metric.dms_failed (by decide)
            (by decide) today]

/-- Witness for C4 (amended): concrete denied join (ceiling 1, window full)
records a join failure; concrete denied DM (ceiling 1, window full) records
a DM failure. -/
theorem process_rate_limited_records_failure_witness :
    (process_project { autoW with join_times := [0], max_joins_per_hour := 1 } dbOneLead
        projAlpha "hi" envProcNoAdmins "2026-10-12" 10).res.joined = false ∧
    getDailyMetric (process_project { autoW with join_times := [0], max_joins_per_hour := 1 }
        dbOneLead projAlpha "hi" envProcNoAdmins "2026-10-12" 10).db .join_failures
      "2026-10-12" = getDailyMetric dbOneLead .join_failures "2026-10-12" + 1 ∧
    getDailyMetric (process_project { autoW with dm_times := [0], max_dms_per_hour := 1 }
        dbOneLead projAlpha "hi" envProcBob "2026-10-12" 10).db .dms_failed
      "2026-10-12" = getDailyMetric dbOneLead .dms_failed "2026-10-12" + 1 :=
  ⟨((process_rate_limited_records_failure
      { autoW with join_times := [0], max_joins_per_hour := 1 } dbOneLead projAlpha "hi"
      envProcNoAdmins "2026-10-12" 10 "alphagroup" (by decide) (by decide)).1
      (by decide) (by decide)).1,
   ((process_rate_limited_records_failure
      { autoW with join_times := [0], max_joins_per_hour := 1 } dbOneLead projAlpha "hi"
      envProcNoAdmins "2026-10-12" 10 "alphagroup" (by decide) (by decide)).1
      (by decide) (by decide)).2.2.2.2.2.1,
   ((process_rate_limited_records_failure
      { autoW with dm_times := [0], max_dms_per_hour := 1 } dbOneLead projAlpha "hi"
      envProcBob "2026-10-12" 10 "alphagroup" (by decide) (by decide)).2
      (by decide) rfl rfl (by decide) (by decide)).2.2.2.2⟩

/-! ## C6: cycle-controller dedup before insertion -/

theorem mem_get_uncontacted (db : DB) (limit : Nat) (onlyUn : Bool) (p : Project)
    (hp : p ∈ get_uncontacted_projects db limit onlyUn) :
    p ∈ db.projects ∧ uncontactedFilter onlyUn p = true := by
  unfold get_uncontacted_projects at hp
  have h1 := List.take_subset _ _ hp
  have h2 := (List.perm_insertionSort
    (fun p q : Project => q.discovered_at ≤ p.discovered_at) _).mem_iff.mp h1
  exact ⟨List.mem_of_mem_filter h2, List.of_mem_filter h2⟩

/-- C6 counterexample: a candidate whose contract identifier is already in
the Store under status `"joined"` is NOT dropped by the cycle's dedup (the
skip set is built from `get_uncontacted_projects`, not from all stored
Leads), so the already-known candidate is passed on to `add_project`. -/
theorem scrape_dedup_counterexample :
    (∃ p ∈ dbJoinedLead.projects, p.contract_address = "CA1") ∧
    tokA.address = some "CA1" ∧
    scrapeNewTokens dbJoinedLead [tokA] = [tokA] := by decide

/-- C6 (amended). The cycle's dedup happens before insertion, but only
against the store's uncontacted leads (status `"discovered"`, non-NULL
group URL, 1000 newest, truthy address): every surviving candidate's
address is outside that skip set, the survivors' addresses are pairwise
distinct (in-cycle dedup), and every survivor is one of the input
candidates.  Candidates known to the store under any other status are not
dropped here (idempotent `add_project` then prevents a duplicate row). -/
theorem scrape_dedup_before_insert (db : DB) (tokens : List TokenData)
    (haddr : ∀ t ∈ tokens, t.address.isSome = true) :
    (∀ t ∈ scrapeNewTokens db tokens, ∀ addr, t.address = some addr →
       addr ∉ scrapeSkipAddresses db) ∧
    (scrapeNewTokens db tokens).Pairwise (fun t s => t.address ≠ s.address) ∧
    (∀ t ∈ scrapeNewTokens db tokens, t ∈ tokens) := by
  have main : ∀ (ts : List TokenData), (∀ t ∈ ts, t.address.isSome = true) →
      ∀ (skip : List String),
      (∀ t ∈ scrapeNewTokensGo skip ts, ∀ addr, t.address = some addr → addr ∉ skip) ∧
      (scrapeNewTokensGo skip ts).Pairwise (fun t s => t.address ≠ s.address) ∧
      (∀ t ∈ scrapeNewTokensGo skip ts, t ∈ ts) := by
    intro ts
    induction ts with
    | nil => intro _ skip; exact ⟨by simp [scrapeNewTokensGo], by simp [scrapeNewTokensGo],
        by simp [scrapeNewTokensGo]⟩
    | cons t ts ih =>
      intro hall skip
      have ht := hall t (List.mem_cons_self t ts)
      have hts := fun s hs => hall s (List.mem_cons_of_mem t hs)
      obtain ⟨addr, haddr_t⟩ := Option.isSome_iff_exists.mp ht
      cases hc : skip.contains addr
      · have hgo : scrapeNewTokensGo skip (t :: ts) =
            t :: scrapeNewTokensGo (addr :: skip) ts := by
          simp only [scrapeNewTokensGo, haddr_t, hc, Bool.false_eq_true, if_false]
        obtain ⟨ih1, ih2, ih3⟩ := ih hts (addr :: skip)
        refine ⟨?_, ?_, ?_⟩
        · intro s hs addr' haddr'
          rw [hgo, List.mem_cons] at hs
          rcases hs with rfl | hs
          · rw [haddr_t] at haddr'
            have he : addr = addr' := by injection haddr'
            subst he
            intro hmem
            have hcontains : skip.contains addr = true := List.elem_eq_true_of_mem hmem
            rw [hc] at hcontains
            exact Bool.noConfusion hcontains
          · intro hmem
            exact ih1 s hs addr' haddr' (List.mem_cons_of_mem addr hmem)
        · rw [hgo]
          refine List.Pairwise.cons ?_ ih2
          intro s hs
          have hsmem := ih3 s hs
          obtain ⟨addr', haddr'⟩ := Option.isSome_iff_exists.mp (hts s hsmem)
          have hnotin := ih1 s hs addr' haddr'
          rw [haddr_t, haddr']
          intro hcontra
          have he : addr = addr' := by injection hcontra
          apply hnotin
          rw [← he]
          exact List.mem_cons_self addr skip
        · intro s hs
          rw [hgo, List.mem_cons] at hs
          rcases hs with rfl | hs
          · exact List.mem_cons_self s ts
          · exact List.mem_cons_of_mem t (ih3 s hs)
      · have hgo : scrapeNewTokensGo skip (t :: ts) = scrapeNewTokensGo skip ts := by
          simp only [scrapeNewTokensGo, haddr_t, hc, if_true]
        obtain ⟨ih1, ih2, ih3⟩ := ih hts skip
        exact ⟨by rw [hgo]; exact ih1, by rw [hgo]; exact ih2,
          fun s hs => List.mem_cons_of_mem t (ih3 s (hgo ▸ hs))⟩
  exact main tokens haddr (scrapeSkipAddresses db)

/-- Witness for C6 (amended): with the lead `CA1` uncontacted in the store,
the duplicate candidate is dropped before insertion. -/
theorem scrape_dedup_before_insert_witness :
    ((∀ t ∈ scrapeNewTokens dbOneLead [tokA], ∀ addr, t.address = some addr →
       addr ∉ scrapeSkipAddresses dbOneLead) ∧
    (scrapeNewTokens dbOneLead [tokA]).Pairwise (fun t s => t.address ≠ s.address) ∧
    (∀ t ∈ scrapeNewTokens dbOneLead [tokA], t ∈ [tokA])) ∧
    scrapeNewTokens dbOneLead [tokA] = [] :=
  ⟨scrape_dedup_before_insert dbOneLead [tokA] (by decide), by decide⟩

/-! ## C9: response-rate division guard -/

theorem roundHalfEvenDiv_close (num den : Nat) (hden : 0 < den) :
    |(roundHalfEvenDiv num den : Rat) - (num : Rat) / (den : Rat)| ≤ 1/2 := by
  have hq := Nat.div_add_mod num den
  have hrden := Nat.mod_lt num hden
  have hdenQ : (0 : Rat) < (den : Rat) := by exact_mod_cast hden
  have hdenNe : (den : Rat) ≠ 0 := ne_of_gt hdenQ
  have hnum : (den : Rat) * ((num / den : Nat) : Rat) + ((num % den : Nat) : Rat)
      = (num : Rat) := by
    have h0 : ((den * (num / den) + num % den : Nat) : Rat) = (num : Rat) := by rw [hq]
    push_cast at h0
    exact h0
  have hsplit : (num : Rat) / (den : Rat)
      = ((num / den : Nat) : Rat) + ((num % den : Nat) : Rat) / (den : Rat) := by
    rw [div_eq_iff hdenNe, add_mul, div_mul_cancel₀ _ hdenNe]
    linarith [hnum]
  have hr0 : (0 : Rat) ≤ ((num % den : Nat) : Rat) / (den : Rat) :=
    div_nonneg (Nat.cast_nonneg _) (le_of_lt hdenQ)
  have hr1 : ((num % den : Nat) : Rat) / (den : Rat) < 1 := by
    rw [div_lt_one hdenQ]
    exact_mod_cast hrden
  unfold roundHalfEvenDiv
  dsimp only
  split
  · rename_i hlt
    have h2 : 2 * ((num % den : Nat) : Rat) < (den : Rat) := by exact_mod_cast hlt
    have hhalf : ((num % den : Nat) : Rat) / (den : Rat) < 1/2 := by
      rw [div_lt_iff hdenQ]
      linarith
    rw [hsplit, abs_le]
    constructor <;> linarith
  · split
    · rename_i hgt
      have h2 : (den : Rat) < 2 * ((num % den : Nat) : Rat) := by exact_mod_cast hgt
      have hhalf : (1 : Rat)/2 < ((num % den : Nat) : Rat) / (den : Rat) := by
        rw [lt_div_iff hdenQ]
        linarith
      rw [hsplit, abs_le]
      push_cast
      constructor <;> linarith
    · rename_i hnlt hngt
      have heq : 2 * (num % den) = den :=
        le_antisymm (Nat.le_of_not_lt hngt) (Nat.le_of_not_lt hnlt)
      have heqQ : 2 * ((num % den : Nat) : Rat) = (den : Rat) := by exact_mod_cast heq
      have hhalf : ((num % den : Nat) : Rat) / (den : Rat) = 1/2 := by
        rw [div_eq_iff hdenNe]
        linarith
      split
      · rw [hsplit, hhalf, abs_le]
        constructor <;> linarith
      · rw [hsplit, hhalf, abs_le]
        push_cast
        constructor <;> linarith

/-- C9 counterexample: with 3 successful sends and 1 response the reported
rate is 33.3 (one-decimal rounding), which is not equal to the exact
percentage 100/3 the claim states. -/
theorem response_rate_rounding_counterexample :
    response_rate dbThreeMsgs = 333/10 ∧
    (responses_received_count dbThreeMsgs : Rat) / (total_dms_sent dbThreeMsgs : Rat) * 100 =
      100/3 ∧
    (333 : Rat)/10 ≠ 100/3 := by
  refine ⟨?_, ?_, by norm_num⟩
  · unfold response_rate
    rw [show response_rate_tenths dbThreeMsgs = 333 from by decide]
    norm_num
  · rw [show responses_received_count dbThreeMsgs = 1 from by decide,
        show total_dms_sent dbThreeMsgs = 3 from by decide]
    norm_num

/-- C9 (amended). The reported all-time response rate is derived by
division and guards divide-by-zero by returning 0: with no successful send
it is 0, and with at least one successful send it is the percentage
`responses_received / total_dms_sent * 100` rounded to one decimal — within
1/20 of the exact percentage, and equal to the exact half-even rounding of
it. -/
theorem response_rate_guard (db : DB) :
    ((∀ m ∈ db.messages, m.send_success = false) → response_rate db = 0) ∧
    (0 < total_dms_sent db →
      |response_rate db -
        (responses_received_count db : Rat) / (total_dms_sent db : Rat) * 100| ≤ 1/20 ∧
      response_rate db = (roundHalfEvenDiv (responses_received_count db * 1000)
        (total_dms_sent db) : Rat) / 10) := by
  constructor
  · intro h
    have h0 : total_dms_sent db = 0 :=
      List.countP_eq_zero.mpr (fun m hm => by simp [h m hm])
    unfold response_rate response_rate_tenths
    rw [h0]
    norm_num
  · intro h
    have htQ : (0 : Rat) < (total_dms_sent db : Rat) := by exact_mod_cast h
    have heq : response_rate db = (roundHalfEvenDiv (responses_received_count db * 1000)
        (total_dms_sent db) : Rat) / 10 := by
      unfold response_rate response_rate_tenths
      rw [if_pos h]
    refine ⟨?_, heq⟩
    rw [heq]
    have hclose := roundHalfEvenDiv_close (responses_received_count db * 1000)
      (total_dms_sent db) h
    have hperc : (responses_received_count db : Rat) / (total_dms_sent db : Rat) * 100 =
        ((responses_received_count db * 1000 : Nat) : Rat) / (total_dms_sent db : Rat) / 10 := by
      push_cast
      field_simp
      ring
    rw [hperc, div_sub_div_same, abs_div]
    rw [show |(10 : Rat)| = 10 from by norm_num]
    rw [div_le_iff (by norm_num : (0:Rat) < 10)]
    calc |(roundHalfEvenDiv (responses_received_count db * 1000) (total_dms_sent db) : Rat) -
          ((responses_received_count db * 1000 : Nat) : Rat) / (total_dms_sent db : Rat)|
        ≤ 1/2 := hclose
      _ = 1/20 * 10 := by norm_num

/-- Witness for C9 (amended): empty database reports rate 0; the 3-message
database's rate equals the rounded division. -/
theorem response_rate_guard_witness :
    response_rate DB.empty = 0 ∧
    response_rate dbThreeMsgs = (roundHalfEvenDiv (responses_received_count dbThreeMsgs * 1000)
      (total_dms_sent dbThreeMsgs) : Rat) / 10 :=
  ⟨(response_rate_guard DB.empty).1 (by decide),
   ((response_rate_guard dbThreeMsgs).2 (by decide)).2⟩

/-! ## C3: Lead status monotonicity along the pipeline -/

theorem statusLe_refl (s : String) : statusLe s s = true := by
  simp [statusLe]

theorem statusLe_trans {a b c : String} (h1 : statusLe a b = true)
    (h2 : statusLe b c = true) : statusLe a c = true := by
  simp only [statusLe, Bool.or_eq_true, Bool.and_eq_true, beq_iff_eq] at h1 h2 ⊢
  rcases h1 with ((rfl | ⟨rfl, ((rfl | rfl) | rfl) | rfl⟩) | ⟨rfl, (rfl | rfl) | rfl⟩) |
    ⟨rfl, rfl | rfl⟩
  · exact h2
  all_goals rcases h2 with ((rfl | ⟨h, h2⟩) | ⟨h, h2⟩) | ⟨h, h2⟩ <;> simp_all
  all_goals tauto

theorem updStatus_ne (pid : Nat) (s : String) (now : Int) (q : Project)
    (h : q.id ≠ pid) : updStatus pid s now q = q := by
  unfold updStatus
  rw [if_neg (by simpa using h)]

theorem GoodUpd_id (pid : Nat) : GoodUpd pid (fun q => q) :=
  ⟨fun _ _ => rfl, fun _ => ⟨rfl, rfl, Or.inl rfl⟩⟩

theorem GoodUpd_updStatus (pid : Nat) (s : String) (now : Int)
    (hs : s = "joined" ∨ s = "contacted") : GoodUpd pid (updStatus pid s now) := by
  constructor
  · exact fun q hq => updStatus_ne pid s now q hq
  · intro q
    unfold updStatus
    split
    · rcases hs with rfl | rfl
      · exact ⟨rfl, rfl, Or.inr (Or.inl rfl)⟩
      · exact ⟨rfl, rfl, Or.inr (Or.inr rfl)⟩
    · exact ⟨rfl, rfl, Or.inl rfl⟩

theorem GoodUpd_comp {pid : Nat} {g1 g2 : Project → Project}
    (h1 : GoodUpd pid g1) (h2 : GoodUpd pid g2) : GoodUpd pid (g2 ∘ g1) := by
  constructor
  · intro q hq
    simp only [Function.comp]
    rw [h1.1 q hq, h2.1 q hq]
  · intro q
    obtain ⟨hid1, hca1, hst1⟩ := h1.2 q
    obtain ⟨hid2, hca2, hst2⟩ := h2.2 (g1 q)
    simp only [Function.comp]
    refine ⟨hid2.trans hid1, hca2.trans hca1, ?_⟩
    rcases hst2 with h | h | h
    · rw [h]
      exact hst1
    · exact Or.inr (Or.inl h)
    · exact Or.inr (Or.inr h)

theorem GoodUpd.idPres {pid : Nat} {g : Project → Project} (h : GoodUpd pid g) :
    IdPres g :=
  fun q => ⟨(h.2 q).1, (h.2 q).2.1⟩

theorem IdPres_id : IdPres (fun q => q) := fun _ => ⟨rfl, rfl⟩

theorem IdPres_comp {g1 g2 : Project → Project} (h1 : IdPres g1) (h2 : IdPres g2) :
    IdPres (fun q => g2 (g1 q)) :=
  fun q => ⟨(h2 (g1 q)).1.trans (h1 q).1, (h2 (g1 q)).2.trans (h1 q).2⟩

theorem updIndex_fields (pid : Nat) (b : Bool) (now : Int) (q : Project) :
    (updIndex pid b now q).id = q.id ∧
    (updIndex pid b now q).contract_address = q.contract_address ∧
    (updIndex pid b now q).status = q.status := by
  unfold updIndex
  split
  · exact ⟨rfl, rfl, rfl⟩
  · exact ⟨rfl, rfl, rfl⟩

theorem update_status_projects (db : DB) (pid : Nat) (s : String) (n : Int) :
    (update_project_status db pid s n).projects =
      db.projects.map (updStatus pid s n) := rfl

theorem update_status_next_project_id (db : DB) (pid : Nat) (s : String) (n : Int) :
    (update_project_status db pid s n).next_project_id = db.next_project_id := rfl

theorem update_index_status_projects (db : DB) (pid : Nat) (b : Bool) (today : String)
    (now : Int) :
    (update_index_status db pid b today now).projects =
      db.projects.map (updIndex pid b now) := by
  unfold update_index_status
  split <;> simp [increment_projects, updIndex]

theorem update_index_status_next_project_id (db : DB) (pid : Nat) (b : Bool)
    (today : String) (now : Int) :
    (update_index_status db pid b today now).next_project_id = db.next_project_id := by
  unfold update_index_status
  split <;> simp [increment_next_project_id]

theorem add_telegram_group_projects_false (db : DB) (pid : Nat) (url : String)
    (error : Option String) (today : String) (now : Int) :
    (add_telegram_group db pid url false error today now).1.projects = db.projects := by
  simp only [add_telegram_group]
  split
  · rfl
  · simp [increment_projects]

theorem add_telegram_group_projects_true (db : DB) (pid : Nat) (url : String)
    (error : Option String) (today : String) (now : Int) :
    (add_telegram_group db pid url true error today now).1.projects = db.projects ∨
    (add_telegram_group db pid url true error today now).1.projects =
      db.projects.map (updStatus pid "joined" now) := by
  simp only [add_telegram_group]
  split
  · exact Or.inl rfl
  · right
    simp [update_project_status, increment_projects, updStatus]

theorem add_telegram_group_next_project_id (db : DB) (pid : Nat) (url : String)
    (joined : Bool) (error : Option String) (today : String) (now : Int) :
    (add_telegram_group db pid url joined error today now).1.next_project_id =
      db.next_project_id := by
  simp only [add_telegram_group]
  split
  · rfl
  · split <;> simp [update_project_status, increment_next_project_id]

theorem add_message_projects (db : DB) (pid : Nat) (admin_id : Option Nat) (text : String)
    (template : Option String) (success : Bool) (error : Option String)
    (today : String) (now : Int) :
    (add_message db pid admin_id text template success error today now).1.projects =
      (if success then db.projects.map (updStatus pid "contacted" now)
       else db.projects) := by
  simp only [add_message]
  cases success
  · simp [increment_projects]
  · simp [update_project_status, increment_projects, updStatus]

theorem add_message_next_project_id (db : DB) (pid : Nat) (admin_id : Option Nat)
    (text : String) (template : Option String) (success : Bool) (error : Option String)
    (today : String) (now : Int) :
    (add_message db pid admin_id text template success error today now).1.next_project_id =
      db.next_project_id := by
  simp only [add_message]
  cases success <;> simp [update_project_status, increment_next_project_id]

theorem record_response_projects (db : DB) (mid : Nat) (text : String) (today : String)
    (now : Int) : (record_response db mid text today now).projects = db.projects := by
  simp [record_response, increment_projects]

theorem record_response_next_project_id (db : DB) (mid : Nat) (text : String)
    (today : String) (now : Int) :
    (record_response db mid text today now).next_project_id = db.next_project_id := by
  simp [record_response, increment_next_project_id]

theorem exists_goodUpd_ite (pid : Nat) (now : Int) (P : Prop) [Decidable P]
    (l Y : List Project)
    (hY : Y = l ∨ Y = l.map (updStatus pid "joined" now)) :
    ∃ g : Project → Project,
      (if P then Y.map (updStatus pid "contacted" now) else Y) = l.map g ∧
      GoodUpd pid g := by
  rcases hY with rfl | rfl
  · by_cases h : P
    · rw [if_pos h]
      exact ⟨updStatus pid "contacted" now, rfl, GoodUpd_updStatus _ _ _ (Or.inr rfl)⟩
    · rw [if_neg h]
      exact ⟨fun q => q, by simp, GoodUpd_id pid⟩
  · by_cases h : P
    · rw [if_pos h, List.map_map]
      exact ⟨_, rfl, GoodUpd_comp (GoodUpd_updStatus _ _ _ (Or.inl rfl))
        (GoodUpd_updStatus _ _ _ (Or.inr rfl))⟩
    · rw [if_neg h]
      exact ⟨updStatus pid "joined" now, rfl, GoodUpd_updStatus _ _ _ (Or.inl rfl)⟩

theorem process_project_effect (a : Automator) (db : DB) (proj : ProjectDict)
    (template : String) (env : ProcEnv) (today : String) (now : Int) :
    (process_project a db proj template env today now).db.next_project_id =
      db.next_project_id ∧
    ∃ g : Project → Project,
      (process_project a db proj template env today now).db.projects =
        db.projects.map g ∧ GoodUpd proj.id g := by
  cases htg : truthy (pyOr proj.telegram_url proj.telegram)
  · constructor
    · simp [process_project, htg]
    · refine ⟨fun q => q, ?_, GoodUpd_id proj.id⟩
      simp [process_project, htg]
  · cases hjr : (join_group a env.join ((pyOr proj.telegram_url proj.telegram).getD "")
        now).ok
    · constructor
      · simp [process_project, htg, hjr, add_telegram_group_next_project_id]
      · refine ⟨fun q => q, ?_, GoodUpd_id proj.id⟩
        simp [process_project, htg, hjr, add_telegram_group_projects_false]
    · have hgr2 := add_telegram_group_projects_true db proj.id
        ((pyOr proj.telegram_url proj.telegram).getD "") none today now
      have hgrn := add_telegram_group_next_project_id db proj.id
        ((pyOr proj.telegram_url proj.telegram).getD "") true none today now
      cases hadm : env.admins.isEmpty
      · -- admins present: the DM path
        constructor
        · simp only [process_project, htg, Bool.not_true, Bool.false_eq_true, if_false,
            hjr, Bool.not_false, if_true, hadm]
          rw [add_message_next_project_id, apply_ite DB.next_project_id,
            recordAdmins_next_project_id, ite_self]
          exact hgrn
        · simp only [process_project, htg, Bool.not_true, Bool.false_eq_true, if_false,
            hjr, Bool.not_false, if_true, hadm]
          rw [add_message_projects, apply_ite DB.projects, recordAdmins_projects,
            ite_self]
          exact exists_goodUpd_ite proj.id now _ db.projects _ hgr2
      · -- no admins found: stop after the join
        constructor
        · simp only [process_project, htg, Bool.not_true, Bool.false_eq_true, if_false,
            hjr, Bool.not_false, if_true, hadm]
          exact hgrn
        · simp only [process_project, htg, Bool.not_true, Bool.false_eq_true, if_false,
            hjr, Bool.not_false, if_true, hadm]
          rcases hgr2 with hg | hg
          · exact ⟨fun q => q, by rw [hg]; simp, GoodUpd_id proj.id⟩
          · exact ⟨updStatus proj.id "joined" now, hg,
              GoodUpd_updStatus _ _ _ (Or.inl rfl)⟩

theorem pairwise_key_unique {α : Type} (f : α → Nat) :
    ∀ (l : List α), l.Pairwise (fun a b => f a ≠ f b) →
      ∀ (a b : α), a ∈ l → b ∈ l → f a = f b → a = b
  | [], _, a, _, ha, _, _ => absurd ha (List.not_mem_nil a)
  | x :: xs, hl, a, b, ha, hb, hf => by
    obtain ⟨hhd, htl⟩ := List.pairwise_cons.mp hl
    rcases List.mem_cons.mp ha with rfl | ha' <;> rcases List.mem_cons.mp hb with rfl | hb'
    · rfl
    · exact absurd hf (hhd b hb')
    · exact absurd hf.symm (hhd a ha')
    · exact pairwise_key_unique f xs htl a b ha' hb' hf

theorem pairwise_zip_left {α β : Type} {R : α → α → Prop} :
    ∀ (l1 : List α) (l2 : List β), l1.Pairwise R →
      (l1.zip l2).Pairwise (fun x y => R x.1 y.1)
  | [], _, _ => by simp
  | _ :: _, [], _ => by simp
  | x :: xs, y :: ys, h => by
    obtain ⟨hhd, htl⟩ := List.pairwise_cons.mp h
    rw [List.zip_cons_cons]
    refine List.Pairwise.cons ?_ (pairwise_zip_left xs ys htl)
    intro z hz
    obtain ⟨z1, z2⟩ := z
    exact hhd z1 (List.mem_zip hz).1

theorem pairwise_map_key_ne {α β : Type} (f : α → β) (kA : α → Nat) (kB : β → Nat)
    (hpres : ∀ a, kB (f a) = kA a) :
    ∀ (l : List α), l.Pairwise (fun p q => kA p ≠ kA q) →
      (l.map f).Pairwise (fun p q => kB p ≠ kB q)
  | [], _ => by simp
  | x :: xs, h => by
    obtain ⟨hhd, htl⟩ := List.pairwise_cons.mp h
    rw [List.map_cons]
    refine List.Pairwise.cons ?_ (pairwise_map_key_ne f kA kB hpres xs htl)
    intro y hy
    obtain ⟨q, hq, rfl⟩ := List.mem_map.mp hy
    rw [hpres, hpres]
    exact hhd q hq

theorem batch_pairwise (db : DB) (limit : Nat) (onlyUn : Bool)
    (hpw : db.projects.Pairwise (fun p q => p.id ≠ q.id)) :
    (get_uncontacted_projects db limit onlyUn).Pairwise (fun p q => p.id ≠ q.id) := by
  unfold get_uncontacted_projects
  refine List.Pairwise.sublist (List.take_sublist _ _) ?_
  have h1 : (db.projects.filter (uncontactedFilter onlyUn)).Pairwise
      (fun p q : Project => p.id ≠ q.id) :=
    List.Pairwise.sublist (List.filter_sublist _) hpw
  exact ((List.perm_insertionSort _ _).pairwise_iff (fun h => Ne.symm h)).mpr h1

theorem processProjectsGo_effect (template today : String) (now : Int) :
    ∀ (L : List (ProjectDict × ProcEnv)) (a : Automator) (db : DB),
      (∀ pr ∈ L, ∀ q ∈ db.projects, q.id = pr.1.id → q.status = "discovered") →
      L.Pairwise (fun pr pr' => pr.1.id ≠ pr'.1.id) →
      (processProjectsGo template today now a db L).2.next_project_id =
        db.next_project_id ∧
      (∃ g : Project → Project,
        (processProjectsGo template today now a db L).2.projects =
          db.projects.map g ∧ IdPres g) ∧
      (∀ p ∈ db.projects,
        ∃ p' ∈ (processProjectsGo template today now a db L).2.projects,
          p'.id = p.id ∧ p'.contract_address = p.contract_address ∧
          statusLe p.status p'.status = true) := by
  intro L
  induction L with
  | nil =>
    intro a db _ _
    exact ⟨rfl, ⟨fun q => q, by simp [processProjectsGo], IdPres_id⟩,
      fun p hp => ⟨p, hp, rfl, rfl, statusLe_refl p.status⟩⟩
  | cons pr rest ih =>
    intro a db hdisc hpw
    obtain ⟨proj, env⟩ := pr
    obtain ⟨hhead, htail⟩ := List.pairwise_cons.mp hpw
    obtain ⟨hnext1, g1, hproj1, hgood1⟩ :=
      process_project_effect a db proj template env today now
    have hstep : processProjectsGo template today now a db ((proj, env) :: rest) =
        processProjectsGo template today now
          (process_project a db proj template env today now).auto
          (process_project a db proj template env today now).db rest := rfl
    have hdisc2 : ∀ pr' ∈ rest,
        ∀ q ∈ (process_project a db proj template env today now).db.projects,
          q.id = pr'.1.id → q.status = "discovered" := by
      intro pr' hpr' q hq hqid
      rw [hproj1] at hq
      obtain ⟨q0, hq0, rfl⟩ := List.mem_map.mp hq
      have hid : q0.id = pr'.1.id := ((hgood1.2 q0).1).symm.trans hqid
      have hne : q0.id ≠ proj.id := by
        rw [hid]
        intro hcontra
        exact hhead pr' hpr' hcontra.symm
      rw [hgood1.1 q0 hne]
      exact hdisc pr' (List.mem_cons_of_mem _ hpr') q0 hq0 hid
    obtain ⟨hnext2, ⟨g2, hproj2, hid2⟩, hmono2⟩ :=
      ih (process_project a db proj template env today now).auto
        (process_project a db proj template env today now).db hdisc2 htail
    refine ⟨?_, ⟨fun q => g2 (g1 q), ?_, IdPres_comp hgood1.idPres hid2⟩, ?_⟩
    · rw [hstep, hnext2, hnext1]
    · rw [hstep, hproj2, hproj1, List.map_map]
      rfl
    · intro p hp
      have hp1 : g1 p ∈ (process_project a db proj template env today now).db.projects := by
        rw [hproj1]
        exact List.mem_map_of_mem g1 hp
      obtain ⟨p', hp', hid', hca', hst'⟩ := hmono2 (g1 p) hp1
      have hst1 : statusLe p.status (g1 p).status = true := by
        by_cases hpid : p.id = proj.id
        · have hpdisc : p.status = "discovered" :=
            hdisc (proj, env) (List.mem_cons_self _ _) p hp hpid
          rcases (hgood1.2 p).2.2 with h | h | h
          · rw [h]
            exact statusLe_refl _
          · rw [hpdisc, h]
            decide
          · rw [hpdisc, h]
            decide
        · rw [hgood1.1 p hpid]
          exact statusLe_refl _
      refine ⟨p', by rw [hstep]; exact hp', hid'.trans (hgood1.2 p).1,
        hca'.trans (hgood1.2 p).2.1, statusLe_trans hst1 hst'⟩

theorem PipeStep_sound {db db' : DB} (hwf : WF db) (h : PipeStep db db') :
    WF db' ∧ ∀ p ∈ db.projects, ∃ p' ∈ db'.projects,
      p'.id = p.id ∧ p'.contract_address = p.contract_address ∧
      statusLe p.status p'.status = true := by
  obtain ⟨hbound, hpw⟩ := hwf
  cases h with
  | addProject t today now =>
    cases hk : t.key with
    | none =>
      have heq : (add_project db t today now).1 = db := by
        simp [add_project, hk]
      rw [heq]
      exact ⟨⟨hbound, hpw⟩, fun p hp => ⟨p, hp, rfl, rfl, statusLe_refl _⟩⟩
    | some adr =>
      cases hdup : db.projects.any (·.contract_address == adr)
      · obtain ⟨hprojs, _, _, _, hnext, _⟩ := add_project_fresh db t adr hk hdup today now
        refine ⟨⟨?_, ?_⟩, ?_⟩
        · intro p hp
          rw [hprojs] at hp
          rw [hnext]
          rcases List.mem_append.mp hp with hp | hp
          · exact Nat.lt_succ_of_lt (hbound p hp)
          · have hp' : p = newProjectRow db t adr now := by simpa using hp
            rw [hp']
            exact Nat.lt_succ_self db.next_project_id
        · rw [hprojs]
          refine List.pairwise_append.mpr ⟨hpw, by simp, ?_⟩
          intro p hp q hq
          have hq' : q = newProjectRow db t adr now := by simpa using hq
          rw [hq']
          exact Nat.ne_of_lt (hbound p hp)
        · intro p hp
          exact ⟨p, by rw [hprojs]; exact List.mem_append_left _ hp, rfl, rfl,
            statusLe_refl _⟩
      · have heq : (add_project db t today now).1 = db := by
          rw [add_project_dup db t adr hk hdup today now]
        rw [heq]
        exact ⟨⟨hbound, hpw⟩, fun p hp => ⟨p, hp, rfl, rfl, statusLe_refl _⟩⟩
  | indexStatus pid b today now =>
    have hproj := update_index_status_projects db pid b today now
    have hnext := update_index_status_next_project_id db pid b today now
    refine ⟨⟨?_, ?_⟩, ?_⟩
    · intro p hp
      rw [hproj] at hp
      obtain ⟨q, hq, rfl⟩ := List.mem_map.mp hp
      rw [hnext, (updIndex_fields pid b now q).1]
      exact hbound q hq
    · rw [hproj]
      exact pairwise_map_key_ne (updIndex pid b now) (fun p => p.id) (fun p => p.id)
        (fun q => (updIndex_fields pid b now q).1) db.projects hpw
    · intro p hp
      refine ⟨updIndex pid b now p, ?_, (updIndex_fields pid b now p).1,
        (updIndex_fields pid b now p).2.1, ?_⟩
      · rw [hproj]
        exact List.mem_map_of_mem _ hp
      · rw [(updIndex_fields pid b now p).2.2]
        exact statusLe_refl _
  | outreach a limit onlyUn template envs today now =>
    have hdisc : ∀ pr ∈ ((get_uncontacted_projects db limit onlyUn).map
          Project.toDict).zip envs,
        ∀ q ∈ db.projects, q.id = pr.1.id → q.status = "discovered" := by
      intro pr hpr q hq hqid
      obtain ⟨d, e⟩ := pr
      have hd : d ∈ (get_uncontacted_projects db limit onlyUn).map Project.toDict :=
        (List.mem_zip hpr).1
      obtain ⟨pb, hpb, rfl⟩ := List.mem_map.mp hd
      obtain ⟨hpbmem, hflt⟩ := mem_get_uncontacted db limit onlyUn pb hpb
      have hpbst : pb.status = "discovered" := by
        simp only [uncontactedFilter, Bool.and_eq_true, beq_iff_eq] at hflt
        exact hflt.1.1
      have hq_pb : q = pb :=
        pairwise_key_unique (fun p : Project => p.id) db.projects hpw q pb hq hpbmem hqid
      rw [hq_pb]
      exact hpbst
    have hzpw : (((get_uncontacted_projects db limit onlyUn).map
          Project.toDict).zip envs).Pairwise
        (fun pr pr' => pr.1.id ≠ pr'.1.id) := by
      have h2 : ((get_uncontacted_projects db limit onlyUn).map Project.toDict).Pairwise
          (fun d d' => d.id ≠ d'.id) :=
        pairwise_map_key_ne Project.toDict (fun p => p.id) (fun d => d.id)
          (fun _ => rfl) _ (batch_pairwise db limit onlyUn hpw)
      exact pairwise_zip_left _ envs h2
    obtain ⟨hnext, ⟨g, hproj, hid⟩, hmono⟩ := processProjectsGo_effect template today now
      (((get_uncontacted_projects db limit onlyUn).map Project.toDict).zip envs)
      a db hdisc hzpw
    have hpb : (processBatch a db limit onlyUn template envs today now).2 =
        (processProjectsGo template today now a db
          (((get_uncontacted_projects db limit onlyUn).map Project.toDict).zip envs)).2 :=
      rfl
    rw [hpb]
    refine ⟨⟨?_, ?_⟩, ?_⟩
    · intro p hp
      rw [hproj] at hp
      obtain ⟨q, hq, rfl⟩ := List.mem_map.mp hp
      rw [hnext, (hid q).1]
      exact hbound q hq
    · rw [hproj]
      exact pairwise_map_key_ne g (fun p => p.id) (fun p => p.id)
        (fun q => (hid q).1) db.projects hpw
    · exact hmono
  | response mid text today now =>
    have hproj := record_response_projects db mid text today now
    have hnext := record_response_next_project_id db mid text today now
    refine ⟨⟨?_, ?_⟩, ?_⟩
    · intro p hp
      rw [hproj] at hp
      rw [hnext]
      exact hbound p hp
    · rw [hproj]
      exact hpw
    · intro p hp
      exact ⟨p, by rw [hproj]; exact hp, rfl, rfl, statusLe_refl _⟩

/-- C3. For every Lead and every reachable sequence of store operations as
the pipeline invokes them (inserting discovered candidates, index-flag
updates, outreach passes whose group-join recording advances status to
`"joined"` and whose message recording advances it to `"contacted"`, and
response recording), a well-formed store stays well-formed and every Lead
row survives with its id and contract address, its status only moving
forward along `discovered → joined → contacted → {responded, converted}`
(`statusLe`); since well-formedness is carried along, this applies at every
intermediate state of the sequence, so no reachable sequence regresses a
status. -/
theorem lead_status_monotone (db db' : DB) (hwf : WF db) (h : PipeReach db db') :
    WF db' ∧ ∀ p ∈ db.projects, ∃ p' ∈ db'.projects,
      p'.id = p.id ∧ p'.contract_address = p.contract_address ∧
      statusLe p.status p'.status = true := by
  unfold PipeReach at h
  induction h with
  | refl => exact ⟨hwf, fun p hp => ⟨p, hp, rfl, rfl, statusLe_refl _⟩⟩
  | tail hreach hstep ih =>
    obtain ⟨hwf1, hmono1⟩ := ih
    obtain ⟨hwf2, hmono2⟩ := PipeStep_sound hwf1 hstep
    refine ⟨hwf2, fun p hp => ?_⟩
    obtain ⟨p1, hp1, hid1, hca1, hst1⟩ := hmono1 p hp
    obtain ⟨p2, hp2, hid2, hca2, hst2⟩ := hmono2 p1 hp1
    exact ⟨p2, hp2, hid2.trans hid1, hca2.trans hca1, statusLe_trans hst1 hst2⟩

/-- Witness for C3: the store holding the one freshly discovered lead is
well-formed, and after a concrete pipeline action (an index-status update)
it remains well-formed with the lead's status moved only forward. -/
theorem lead_status_monotone_witness :
    WF dbOneLead ∧
    (WF (update_index_status dbOneLead 1 false "2026-10-12" 3) ∧
     ∀ p ∈ dbOneLead.projects,
       ∃ p' ∈ (update_index_status dbOneLead 1 false "2026-10-12" 3).projects,
         p'.id = p.id ∧ p'.contract_address = p.contract_address ∧
         statusLe p.status p'.status = true) :=
  ⟨by decide,
   lead_status_monotone dbOneLead (update_index_status dbOneLead 1 false "2026-10-12" 3)
     (by decide)
     (Relation.ReflTransGen.single
       (PipeStep.indexStatus dbOneLead 1 false "2026-10-12" 3))⟩

end Lumina
